import Mathlib

/-!
Verification of the credential and session management subsystem of the
google_workspace_mcp repository, as a shallow embedding in Lean 4.

Python strings are embedded as lists of characters (`PyStr`), Python `None`
as `Option.none`, and raised exceptions as `Except` errors.  Each definition
is translated from the repository source (file and function named in its doc
comment); the `OAuth21SessionStore` module is not present in the source tree
and is modelled from the specification (its definitions say so explicitly).
-/

/-- A Python string: a sequence of characters. -/
abbrev PyStr := List Char

/-- Python `str.lower()` (modelled on the ASCII range, which covers every
character the credential subsystem compares case-insensitively). -/
def pyLower (s : PyStr) : PyStr := s.map Char.toLower

/-- Python `str.strip()`: remove whitespace from both ends. -/
def pyStrip (s : PyStr) : PyStr :=
  ((s.dropWhile Char.isWhitespace).reverse.dropWhile Char.isWhitespace).reverse

/-- Python truthiness of an optional string: `None` and `""` are falsy. -/
def pyTruthy : Option PyStr → Bool
  | none => false
  | some s => !s.isEmpty

/-- Python `a if a else b` on optional strings. -/
def pyOrElse (a b : Option PyStr) : Option PyStr :=
  if pyTruthy a then a else b

/-- The scheme test the specification describes for storage locations:
the location, ignoring surrounding whitespace, starts with `s3://` in any
letter case.  (Spec §8: "For all storage locations L with scheme `s3://`
(any case), `is_object_store_path(L) == true`.") -/
def hasS3Scheme (s : PyStr) : Bool :=
  List.isPrefixOf "s3://".toList (pyLower (pyStrip s))

/-- `auth/s3_storage.py`, `is_s3_path`: returns False for `None`, empty and
whitespace-only strings, otherwise tests whether the stripped, lowered path
starts with `s3://`. -/
def is_s3_path : Option PyStr → Bool
  | none => false
  | some p =>
    if p.isEmpty || (pyStrip p).isEmpty then false
    else List.isPrefixOf "s3://".toList (pyLower (pyStrip p))

-- ===================================================================
-- Datetime model (Python datetime, as used by the credential codec)
-- ===================================================================

/-- A timezone-naive Python `datetime` value, as produced by
`datetime.fromisoformat` after the codec's `replace(tzinfo=None)`
normalization and by the Google auth library's token expiry. -/
structure PyDateTime where
  year : Nat
  month : Nat
  day : Nat
  hour : Nat
  minute : Nat
  second : Nat
  micro : Nat
deriving DecidableEq, Repr

/-- Python `calendar` leap-year rule, used by `datetime` day validation. -/
def isLeapYear (y : Nat) : Bool :=
  y % 4 = 0 && (y % 100 ≠ 0 || y % 400 = 0)

/-- Number of days in a month, as `datetime` validates the day field. -/
def daysInMonth (y m : Nat) : Nat :=
  if m = 2 then (if isLeapYear y then 29 else 28)
  else if m = 4 ∨ m = 6 ∨ m = 9 ∨ m = 11 then 30
  else 31

/-- The field ranges Python's `datetime` constructor enforces; every value
the library hands the codec satisfies them. -/
def PyDateTime.Wf (d : PyDateTime) : Prop :=
  1 ≤ d.year ∧ d.year ≤ 9999 ∧ 1 ≤ d.month ∧ d.month ≤ 12 ∧
  1 ≤ d.day ∧ d.day ≤ daysInMonth d.year d.month ∧
  d.hour ≤ 23 ∧ d.minute ≤ 59 ∧ d.second ≤ 59 ∧ d.micro ≤ 999999

instance (d : PyDateTime) : Decidable d.Wf := by
  unfold PyDateTime.Wf
  infer_instance

/-- The decimal digit character for a digit value. -/
def digitChar (d : Nat) : Char := Char.ofNat (48 + d)

/-- Zero-padded two-digit decimal rendering (`%02d`). -/
def pad2 (n : Nat) : PyStr := [digitChar (n / 10), digitChar (n % 10)]

/-- Zero-padded four-digit decimal rendering (`%04d`). -/
def pad4 (n : Nat) : PyStr :=
  [digitChar (n / 1000), digitChar (n / 100 % 10),
   digitChar (n / 10 % 10), digitChar (n % 10)]

/-- Zero-padded six-digit decimal rendering (`%06d`), for microseconds. -/
def pad6 (n : Nat) : PyStr :=
  [digitChar (n / 100000), digitChar (n / 10000 % 10), digitChar (n / 1000 % 10),
   digitChar (n / 100 % 10), digitChar (n / 10 % 10), digitChar (n % 10)]

/-- Python `datetime.isoformat()` on a naive datetime:
`YYYY-MM-DDTHH:MM:SS`, followed by `.ffffff` exactly when the microsecond
field is nonzero. -/
def pyIsoformat (d : PyDateTime) : PyStr :=
  pad4 d.year ++ '-' :: (pad2 d.month ++ '-' :: (pad2 d.day ++
    'T' :: (pad2 d.hour ++ ':' :: (pad2 d.minute ++ ':' :: (pad2 d.second ++
      (if d.micro = 0 then [] else '.' :: pad6 d.micro))))))

/-- Numeric value of a decimal digit character, or `none`. -/
def digitVal (c : Char) : Option Nat :=
  if '0' ≤ c ∧ c ≤ '9' then some (c.toNat - 48) else none

/-- Read two decimal digits from the front of a string. -/
def read2 : PyStr → Option (Nat × PyStr)
  | c1 :: c2 :: rest => do
    let d1 ← digitVal c1
    let d2 ← digitVal c2
    some (d1 * 10 + d2, rest)
  | _ => none

/-- Read four decimal digits from the front of a string. -/
def read4 : PyStr → Option (Nat × PyStr)
  | c1 :: c2 :: c3 :: c4 :: rest => do
    let d1 ← digitVal c1
    let d2 ← digitVal c2
    let d3 ← digitVal c3
    let d4 ← digitVal c4
    some (((d1 * 10 + d2) * 10 + d3) * 10 + d4, rest)
  | _ => none

/-- Read six decimal digits from the front of a string. -/
def read6 : PyStr → Option (Nat × PyStr)
  | c1 :: c2 :: c3 :: c4 :: c5 :: c6 :: rest => do
    let d1 ← digitVal c1
    let d2 ← digitVal c2
    let d3 ← digitVal c3
    let d4 ← digitVal c4
    let d5 ← digitVal c5
    let d6 ← digitVal c6
    some (((((d1 * 10 + d2) * 10 + d3) * 10 + d4) * 10 + d5) * 10 + d6, rest)
  | _ => none

/-- Consume one expected character from the front of a string. -/
def expectChar (c : Char) : PyStr → Option PyStr
  | x :: rest => if x = c then some rest else none
  | [] => none

/-- Parse the optional trailing UTC-offset of an ISO datetime string
(`+HH:MM` or `-HH:MM`), returning the offset in signed minutes. -/
def parseIsoOffset : PyStr → Option (Option Int)
  | [] => some none
  | sgn :: rest =>
    if sgn = '+' ∨ sgn = '-' then do
      let (hh, s) ← read2 rest
      let s ← expectChar ':' s
      let (mm, s) ← read2 s
      if s = [] ∧ hh ≤ 23 ∧ mm ≤ 59 then
        let total : Int := (hh : Int) * 60 + (mm : Int)
        some (some (if sgn = '-' then -total else total))
      else none
    else none

/-- Parse the optional `.ffffff` microsecond fraction of an ISO datetime
string; absent fraction means zero microseconds. -/
def parseIsoFraction : PyStr → Option (Nat × PyStr)
  | '.' :: rest => read6 rest
  | other => some (0, other)

/-- The field validity test of the `datetime` constructor, as a Boolean. -/
def dtOk (d : PyDateTime) : Bool :=
  1 ≤ d.year && d.year ≤ 9999 && 1 ≤ d.month && d.month ≤ 12 &&
  1 ≤ d.day && d.day ≤ daysInMonth d.year d.month &&
  d.hour ≤ 23 && d.minute ≤ 59 && d.second ≤ 59 && d.micro ≤ 999999

/-- Python `datetime.fromisoformat`, modelled on the grammar the credential
codec and the Google auth library emit: `YYYY-MM-DDTHH:MM:SS`, an optional
`.ffffff` fraction, and an optional `+HH:MM`/`-HH:MM` offset.  Returns the
wall-clock fields together with the offset (when one was present); field
ranges are validated as the Python constructor does.  Failure is `none`
(Python raises `ValueError`). -/
def pyFromIsoformat (s : PyStr) : Option (PyDateTime × Option Int) :=
  match read4 s with
  | none => none
  | some (y, s1) =>
  match expectChar '-' s1 with
  | none => none
  | some s2 =>
  match read2 s2 with
  | none => none
  | some (mo, s3) =>
  match expectChar '-' s3 with
  | none => none
  | some s4 =>
  match read2 s4 with
  | none => none
  | some (dy, s5) =>
  match expectChar 'T' s5 with
  | none => none
  | some s6 =>
  match read2 s6 with
  | none => none
  | some (h, s7) =>
  match expectChar ':' s7 with
  | none => none
  | some s8 =>
  match read2 s8 with
  | none => none
  | some (mi, s9) =>
  match expectChar ':' s9 with
  | none => none
  | some s10 =>
  match read2 s10 with
  | none => none
  | some (sec, s11) =>
  match parseIsoFraction s11 with
  | none => none
  | some (us, s12) =>
  match parseIsoOffset s12 with
  | none => none
  | some off =>
  let d : PyDateTime := ⟨y, mo, dy, h, mi, sec, us⟩
  if dtOk d then some (d, off) else none

-- ===================================================================
-- Credential data model and storage backends
-- ===================================================================

deriving instance DecidableEq for Except

/-- The Python exceptions the credential subsystem raises and catches.
`clientNotFound`, `clientNoSuchBucket`, `clientAccessDenied` and
`clientOther` are `botocore` `ClientError`s with the corresponding error
codes; the rest are the standard exceptions named. -/
inductive PyExc
  | ioError
  | jsonDecodeError
  | keyError
  | valueError
  | typeError
  | clientNotFound
  | clientNoSuchBucket
  | clientAccessDenied
  | clientOther
deriving DecidableEq, Repr

/-- The JSON credential blob (`creds_data` in `auth/google_auth.py` and
`auth/credential_utils.py`): a dict with the keys `token`, `refresh_token`,
`token_uri`, `client_id`, `client_secret`, `scopes`, `expiry` (ISO string
or null) and `user_email`.  `none` models both JSON null and an absent key,
matching the `.get` reads the loaders perform. -/
structure CredsData where
  token : Option PyStr
  refresh_token : Option PyStr
  token_uri : Option PyStr
  client_id : Option PyStr
  client_secret : Option PyStr
  scopes : Option (List PyStr)
  expiry : Option PyStr
  user_email : Option PyStr
deriving DecidableEq, Repr

/-- A `google.oauth2.credentials.Credentials` object as the subsystem uses
it.  `id_token` is modelled by the email claim that `jwt.decode` extracts
from it (the only use the subsystem makes of the raw JWT); a credentials
object built without an id token has `id_token = none`. -/
structure Creds where
  token : Option PyStr
  refresh_token : Option PyStr
  token_uri : Option PyStr
  client_id : Option PyStr
  client_secret : Option PyStr
  scopes : Option (List PyStr)
  expiry : Option PyDateTime
  id_token : Option PyStr
deriving DecidableEq, Repr

/-- Content of a local file as the loaders can observe it: JSON that parses
into a credential blob, JSON that fails to parse, or a file the process
cannot read. -/
inductive FileContent
  | jsonFile (d : CredsData)
  | badJsonFile
  | unreadableFile
deriving DecidableEq, Repr

/-- The local filesystem: existing directories and a flat map from paths to
file contents.  Writes put the newest entry first (Python's directory
iteration order is unspecified, so the model fixes most-recent-first). -/
structure LocalFS where
  dirs : List PyStr
  files : List (PyStr × FileContent)
deriving DecidableEq, Repr

/-- Look a path up in the filesystem. -/
def fsLookup (fs : LocalFS) (p : PyStr) : Option FileContent :=
  (fs.files.find? fun e => decide (e.1 = p)).map (·.2)

/-- Overwrite (or create) the file at a path. -/
def fsPut (fs : LocalFS) (p : PyStr) (c : FileContent) : LocalFS :=
  { fs with files := (p, c) :: fs.files.filter fun e => decide (e.1 ≠ p) }

/-- Remove the file at a path (`os.remove`). -/
def fsRemove (fs : LocalFS) (p : PyStr) : LocalFS :=
  { fs with files := fs.files.filter fun e => decide (e.1 ≠ p) }

/-- Python `os.path.exists`: true for files and for directories. -/
def fsExists (fs : LocalFS) (p : PyStr) : Bool :=
  (fsLookup fs p).isSome || p ∈ fs.dirs

/-- Open a local file and parse it as JSON (`open` + `json.load`): raises
`IOError` when the file is missing or unreadable (including when the path
names a directory) and `JSONDecodeError` on malformed content. -/
def fsOpenJson (fs : LocalFS) (p : PyStr) : Except PyExc CredsData :=
  match fsLookup fs p with
  | some (.jsonFile d) => .ok d
  | some .badJsonFile => .error .jsonDecodeError
  | some .unreadableFile => .error .ioError
  | none => .error .ioError

/-- Content of an S3 object as the loaders can observe it. -/
inductive S3Content
  | jsonObj (d : CredsData)
  | badJsonObj
deriving DecidableEq, Repr

/-- One stored S3 object. -/
structure S3Obj where
  bucket : PyStr
  key : PyStr
  content : S3Content
deriving DecidableEq, Repr

/-- The object-store backend: existing buckets, buckets the caller's IAM
identity is denied access to, and the stored objects (newest first). -/
structure S3State where
  buckets : List PyStr
  denied : List PyStr
  objs : List S3Obj
deriving DecidableEq, Repr

/-- Find an object's content by bucket and key. -/
def s3Find (st : S3State) (b k : PyStr) : Option S3Content :=
  (st.objs.find? fun o => decide (o.bucket = b ∧ o.key = k)).map (·.content)

/-- boto3 `head_object`: 404 for a missing key, `NoSuchBucket` and
`AccessDenied` for backend failures. -/
def s3HeadObject (st : S3State) (b k : PyStr) : Except PyExc Unit :=
  if b ∈ st.denied then .error .clientAccessDenied
  else if b ∉ st.buckets then .error .clientNoSuchBucket
  else match s3Find st b k with
    | some _ => .ok ()
    | none => .error .clientNotFound

/-- boto3 `get_object`. -/
def s3GetObject (st : S3State) (b k : PyStr) : Except PyExc S3Content :=
  if b ∈ st.denied then .error .clientAccessDenied
  else if b ∉ st.buckets then .error .clientNoSuchBucket
  else match s3Find st b k with
    | some c => .ok c
    | none => .error .clientNotFound

/-- The stored-object overwrite a successful `put_object` performs. -/
def s3PutRaw (st : S3State) (b k : PyStr) (c : S3Content) : S3State :=
  let objs2 := ⟨b, k, c⟩ :: st.objs.filter (fun o => decide (¬(o.bucket = b ∧ o.key = k)))
  { st with objs := objs2 }

/-- boto3 `put_object`: unconditional overwrite. -/
def s3PutObject (st : S3State) (b k : PyStr) (c : S3Content) :
    Except PyExc S3State :=
  if b ∈ st.denied then .error .clientAccessDenied
  else if b ∉ st.buckets then .error .clientNoSuchBucket
  else .ok (s3PutRaw st b k c)

/-- The stored-object removal a successful `delete_object` performs. -/
def s3DelRaw (st : S3State) (b k : PyStr) : S3State :=
  let objs2 := st.objs.filter (fun o => decide (¬(o.bucket = b ∧ o.key = k)))
  { st with objs := objs2 }

/-- boto3 `delete_object`: succeeds whether or not the object exists. -/
def s3DeleteObject (st : S3State) (b k : PyStr) : Except PyExc S3State :=
  if b ∈ st.denied then .error .clientAccessDenied
  else if b ∉ st.buckets then .error .clientNoSuchBucket
  else .ok (s3DelRaw st b k)

/-- Split a string at the first occurrence of a character
(Python `str.split(c, 1)`): the part before, and the part after when the
character occurs. -/
def splitFirst (c : Char) : PyStr → (PyStr × Option PyStr)
  | [] => ([], none)
  | x :: xs =>
    if x = c then ([], some xs)
    else
      let r := splitFirst c xs
      (x :: r.1, r.2)

/-- Collapse runs of consecutive slashes to a single slash
(`re.sub(r'/+', '/', key_path)`). -/
def collapseSlashes : PyStr → PyStr
  | [] => []
  | [c] => [c]
  | c1 :: c2 :: rest =>
    if c1 = '/' ∧ c2 = '/' then collapseSlashes (c2 :: rest)
    else c1 :: collapseSlashes (c2 :: rest)

/-- Python `str.lstrip('/')`. -/
def lstripSlash (s : PyStr) : PyStr := s.dropWhile (· = '/')

/-- `auth/s3_storage.py`, `parse_s3_path`: validates the `s3://` scheme,
splits bucket from key at the first slash after the scheme, collapses
repeated slashes in the key, and strips a leading slash. -/
def parse_s3_path (p : PyStr) : Except PyExc (PyStr × PyStr) :=
  if is_s3_path (some p) = false then .error .valueError
  else
    let remaining := (pyStrip p).drop 5
    match splitFirst '/' remaining with
    | (bucket, none) => .ok (bucket, [])
    | (bucket, some rest) => .ok (bucket, lstripSlash (collapseSlashes rest))

/-- Python `os.path.join` for the shapes the subsystem uses (the second
component is a bare `{identifier}.json` filename). -/
def osPathJoin (a b : PyStr) : PyStr :=
  if a = [] then b
  else if a.getLast? = some '/' then a ++ b
  else a ++ '/' :: b

/-- `auth/google_auth.py`, `_get_user_credential_path` (and the identical
`get_user_credential_path` of `auth/credential_utils.py`): appends
`{identifier}.json` to the base directory, injecting a slash when missing.
The local-branch `os.makedirs` side effect only creates an empty directory
and is not observable through the file map, so it is not modelled. -/
def _get_user_credential_path (identifier base_dir : PyStr) : PyStr :=
  if is_s3_path (some base_dir) then
    (if base_dir.getLast? = some '/' then base_dir else base_dir ++ ['/'])
      ++ identifier ++ ".json".toList
  else
    osPathJoin base_dir (identifier ++ ".json".toList)

/-- `auth/s3_storage.py`, `s3_upload_json`: parse the path and put the JSON
blob; `NoSuchBucket`/`AccessDenied` handlers re-raise `ClientError`s of the
same code.  (`json.dumps` cannot fail on a credential blob, so the
serialization branch is always the success one.) -/
def s3_upload_json (st : S3State) (p : PyStr) (d : CredsData) :
    Except PyExc S3State :=
  match parse_s3_path p with
  | .error e => .error e
  | .ok (b, k) => s3PutObject st b k (.jsonObj d)

/-- `auth/s3_storage.py`, `s3_download_json`: a 404/`NoSuchKey` from
`get_object` and malformed JSON are both converted to `ValueError`; bucket
and permission failures re-raise `ClientError`s of the same code. -/
def s3_download_json (st : S3State) (p : PyStr) : Except PyExc CredsData :=
  match parse_s3_path p with
  | .error e => .error e
  | .ok (b, k) =>
    match s3GetObject st b k with
    | .ok (.jsonObj d) => .ok d
    | .ok .badJsonObj => .error .valueError
    | .error .clientNotFound => .error .valueError
    | .error e => .error e

/-- `auth/s3_storage.py`, `s3_file_exists`: 404/`NoSuchKey` means `False`;
bucket and permission failures re-raise. -/
def s3_file_exists (st : S3State) (p : PyStr) : Except PyExc Bool :=
  match parse_s3_path p with
  | .error e => .error e
  | .ok (b, k) =>
    match s3HeadObject st b k with
    | .ok _ => .ok true
    | .error .clientNotFound => .ok false
    | .error e => .error e

/-- `auth/s3_storage.py`, `s3_delete_file`: `delete_object` is idempotent;
bucket and permission failures re-raise. -/
def s3_delete_file (st : S3State) (p : PyStr) : Except PyExc S3State :=
  match parse_s3_path p with
  | .error e => .error e
  | .ok (b, k) => s3DeleteObject st b k

/-- The credential blob `save_credentials_to_file` writes (both copies,
`auth/google_auth.py` and `auth/credential_utils.py`): every field listed
explicitly, an absent refresh token serialized as null, the expiry as an
ISO string or null, and the owner email stored for reference. -/
def encodeCreds (c : Creds) (email : PyStr) : CredsData :=
  ⟨c.token, c.refresh_token, c.token_uri, c.client_id, c.client_secret,
   c.scopes, c.expiry.map pyIsoformat, some email⟩

/-- The credential object the loaders construct from a blob (both copies of
`load_credentials_from_file`): a falsy (`null` or empty) stored expiry and
an unparseable expiry both leave the expiry `None` (with a logged warning),
and a timezone-aware ISO string is normalized to its naive wall-clock
fields via `replace(tzinfo=None)`. -/
def decodeCreds (d : CredsData) : Creds :=
  let expiry : Option PyDateTime :=
    match d.expiry with
    | none => none
    | some es =>
      if es.isEmpty then none
      else
        match pyFromIsoformat es with
        | some (dt, _) => some dt
        | none => none
  ⟨d.token, d.refresh_token, d.token_uri, d.client_id, d.client_secret,
   d.scopes, expiry, none⟩

/-- `save_credentials_to_file` (both copies): build the blob, then write it
to S3 or the local file depending on the constructed path; storage errors
are logged and re-raised. -/
def save_credentials_to_file (fs : LocalFS) (s3 : S3State)
    (identifier email : PyStr) (c : Creds) (base_dir : PyStr) :
    Except PyExc (LocalFS × S3State) :=
  let path := _get_user_credential_path identifier base_dir
  let data := encodeCreds c email
  if is_s3_path (some path) then
    match s3_upload_json s3 path data with
    | .error e => .error e
    | .ok st => .ok (fs, st)
  else
    .ok (fsPut fs path (.jsonFile data), s3)

/-- The `try` body of `load_credentials_from_file`: existence check, read,
JSON parse and credential construction, with every exception propagating. -/
def loadCredsBody (fs : LocalFS) (s3 : S3State)
    (identifier base_dir : PyStr) : Except PyExc (Option Creds) :=
  let path := _get_user_credential_path identifier base_dir
  if is_s3_path (some path) then
    match s3_file_exists s3 path with
    | .error e => .error e
    | .ok false => .ok none
    | .ok true =>
      match s3_download_json s3 path with
      | .error e => .error e
      | .ok d => .ok (some (decodeCreds d))
  else
    if fsExists fs path = false then .ok none
    else
      match fsOpenJson fs path with
      | .error e => .error e
      | .ok d => .ok (some (decodeCreds d))

/-- The `except (IOError, json.JSONDecodeError, KeyError)` handler of
`load_credentials_from_file`: exactly those three exception classes are
downgraded to "no credential"; anything else keeps propagating. -/
def catchLoadExc (r : Except PyExc (Option Creds)) :
    Except PyExc (Option Creds) :=
  match r with
  | .error .ioError => .ok none
  | .error .jsonDecodeError => .ok none
  | .error .keyError => .ok none
  | other => other

/-- `load_credentials_from_file` (both copies): the body guarded by the
`IOError`/`JSONDecodeError`/`KeyError` handler. -/
def load_credentials_from_file (fs : LocalFS) (s3 : S3State)
    (identifier base_dir : PyStr) : Except PyExc (Option Creds) :=
  catchLoadExc (loadCredsBody fs s3 identifier base_dir)

/-- `auth/google_auth.py`, `delete_credentials_file`: S3 deletion reports
success unconditionally when `delete_object` succeeds; a local file is
removed only if present (absent means `False`); every exception is caught
and reported as `False`. -/
def delete_credentials_file (fs : LocalFS) (s3 : S3State)
    (identifier base_dir : PyStr) : Bool × LocalFS × S3State :=
  let path := _get_user_credential_path identifier base_dir
  if is_s3_path (some path) then
    match s3_delete_file s3 path with
    | .ok st => (true, fs, st)
    | .error _ => (false, fs, s3)
  else
    match fsLookup fs path with
    | some _ => (true, fsRemove fs path, s3)
    | none => (false, fs, s3)

/-- The filter of `s3_list_json_files`: `key.lower().endswith('.json')`. -/
def isJsonKey (k : PyStr) : Bool :=
  List.isSuffixOf ".json".toList (pyLower k)

/-- The rendering of a listed object: `f"s3://{bucket_name}/{key}"`. -/
def renderS3Path (b k : PyStr) : PyStr :=
  "s3://".toList ++ b ++ '/' :: k

/-- The directory-prefix normalization of `s3_list_json_files`: a nonempty
prefix gets a trailing slash injected when missing. -/
def normDirPref (pref : PyStr) : PyStr :=
  if pref ≠ [] ∧ pref.getLast? ≠ some '/' then pref ++ ['/'] else pref

/-- The keys `list_objects_v2` returns for a bucket and `Prefix` filter:
the stored keys of that bucket starting with the prefix (in storage
order). -/
def s3KeysWithPref (st : S3State) (b pref : PyStr) : List PyStr :=
  (st.objs.filter
    (fun o => decide (o.bucket = b) && List.isPrefixOf pref o.key)).map (·.key)

/-- The `while True` pagination loop of `s3_list_json_files`: each
iteration receives one page of at most `psz` keys (the backend's positive
page size), appends the `.json`-filtered, path-rendered page to the
accumulator, and continues while the response is truncated. -/
def listJsonLoop (b : PyStr) (psz : Nat) (hp : 0 < psz)
    (remaining acc : List PyStr) : List PyStr :=
  if h : (remaining.drop psz).isEmpty then
    acc ++ ((remaining.take psz).filter isJsonKey).map (renderS3Path b)
  else
    listJsonLoop b psz hp (remaining.drop psz)
      (acc ++ ((remaining.take psz).filter isJsonKey).map (renderS3Path b))
termination_by remaining.length
decreasing_by
  have h1 : remaining.drop psz ≠ [] := by
    simpa [List.isEmpty_iff] using h
  have h2 : remaining.length - psz ≠ 0 := by
    intro hz
    exact h1 (List.eq_nil_of_length_eq_zero (by simpa using hz))
  simp only [List.length_drop]
  omega

/-- `auth/s3_storage.py`, `s3_list_json_files`: parse the directory path,
normalize the prefix, accumulate every page of matching keys, filter to
`.json` (case-insensitively) and render full `s3://bucket/key` paths;
bucket and permission failures re-raise, an empty result is simply the
empty list. -/
def s3_list_json_files (st : S3State) (s3_dir : PyStr) (psz : Nat)
    (hp : 0 < psz) : Except PyExc (List PyStr) :=
  match parse_s3_path s3_dir with
  | .error e => .error e
  | .ok (b, pref0) =>
    if b ∈ st.denied then .error .clientAccessDenied
    else if b ∉ st.buckets then .error .clientNoSuchBucket
    else .ok (listJsonLoop b psz hp
      (s3KeysWithPref st b (normDirPref pref0)) [])

-- ===================================================================
-- Session Store (spec-modelled) and Google credential semantics
-- ===================================================================

/-- Modelled from the spec: one record of the `OAuth21SessionStore`
(module `auth/oauth21_session_store.py`, absent from the source tree).
Spec §4.3: a record keyed by user email carrying the credential fields and
the secondary identifiers (`session_id`, `mcp_session_id`, `issuer`).
A keyword argument the caller does not supply is `none`. -/
structure SessionRec where
  user_email : PyStr
  access_token : Option PyStr
  refresh_token : Option PyStr
  token_uri : Option PyStr
  client_id : Option PyStr
  client_secret : Option PyStr
  scopes : Option (List PyStr)
  expiry : Option PyDateTime
  session_id : Option PyStr
  mcp_session_id : Option PyStr
  issuer : Option PyStr
deriving DecidableEq, Repr

/-- Modelled from the spec: the store is the email-keyed record collection,
in dict insertion order (spec §4.3; Python dicts preserve insertion order,
an updated key keeps its position). -/
abbrev SessionStore := List SessionRec

/-- Modelled from the spec: `store_session` — "upsert by email; last write
wins" (spec §4.3).  An existing record is replaced in place; a new email is
appended. -/
def store_session (st : SessionStore) (r : SessionRec) : SessionStore :=
  if (st.find? fun x => decide (x.user_email = r.user_email)).isSome then
    st.map fun x => if x.user_email = r.user_email then r else x
  else st ++ [r]

/-- The credential bundle a session record denotes (spec §3: the bundle
fields; a store-produced bundle carries no id token). -/
def recToCreds (r : SessionRec) : Creds :=
  ⟨r.access_token, r.refresh_token, r.token_uri, r.client_id,
   r.client_secret, r.scopes, r.expiry, none⟩

/-- Modelled from the spec: `get_credentials_by_mcp_session` — reverse
lookup by MCP session id (spec §4.3 `get_by_mcp_session`). -/
def get_credentials_by_mcp_session (st : SessionStore) (sid : PyStr) :
    Option Creds :=
  (st.find? fun r => decide (r.mcp_session_id = some sid)).map recToCreds

/-- Modelled from the spec: `get_user_by_mcp_session` — the email the MCP
session id resolves to (spec §4.3 `get_email_by_mcp_session`). -/
def get_user_by_mcp_session (st : SessionStore) (sid : PyStr) :
    Option PyStr :=
  (st.find? fun r => decide (r.mcp_session_id = some sid)).map
    (·.user_email)

/-- Modelled from the spec: `remove_session` — "remove(email): idempotent;
clears all secondary index entries referencing that email" (spec §4.3). -/
def remove_session (st : SessionStore) (email : PyStr) : SessionStore :=
  st.filter fun r => decide (r.user_email ≠ email)

/-- Days from the civil epoch 1970-01-01 for a proleptic-Gregorian date
(the arithmetic underlying Python `datetime` comparison and
subtraction). -/
def daysFromCivil (y m d : Nat) : Int :=
  let y2 := if m ≤ 2 then y - 1 else y
  let era := y2 / 400
  let yoe := y2 % 400
  let mp := (m + 9) % 12
  let doy := (153 * mp + 2) / 5 + (d - 1)
  let doe := yoe * 365 + yoe / 4 - yoe / 100 + doy
  (era * 146097 + doe : Int) - 719468

/-- A naive datetime as microseconds since the epoch, for comparison with
"now". -/
def epochMicro (t : PyDateTime) : Int :=
  daysFromCivil t.year t.month t.day * 86400000000 +
    (((t.hour * 3600 + t.minute * 60 + t.second) * 1000000 + t.micro : Nat)
      : Int)

/-- `google.auth` semantics of `Credentials.expired`: expired iff
`utcnow() >= expiry - REFRESH_THRESHOLD` (a 225-second clock-skew
accommodation); a credential without expiry information never counts as
expired. -/
def pyExpired (now : Int) (c : Creds) : Bool :=
  match c.expiry with
  | none => false
  | some e => decide (epochMicro e - 225000000 ≤ now)

/-- `google.auth` semantics of `Credentials.valid`: a token is present and
not expired. -/
def pyValid (now : Int) (c : Creds) : Bool :=
  c.token.isSome && !(pyExpired now c)

/-- Outcome of one `credentials.refresh(Request())` call against the token
endpoint: success carries the new access token and expiry plus the refresh
token and id token when the response includes them; `refreshError` is the
definitive rejection (`google.auth.exceptions.RefreshError`); `otherError`
is any other exception (network failure, timeout). -/
inductive RefreshResult
  | success (newToken : PyStr) (newRefresh : Option PyStr)
      (newExpiry : Option PyDateTime) (newIdTok : Option PyStr)
  | refreshError
  | otherError
deriving DecidableEq, Repr

/-- The mutation a successful `Credentials.refresh` performs: new access
token and expiry; the refresh token and id token are replaced only when
the response carries them. -/
def applyRefresh (c : Creds) (nt : PyStr) (nr : Option PyStr)
    (ne : Option PyDateTime) (nit : Option PyStr) : Creds :=
  { c with
    token := some nt,
    expiry := ne,
    refresh_token := match nr with | some r => some r | none => c.refresh_token,
    id_token := match nit with | some i => some i | none => c.id_token }

/-- `auth/google_auth.py`, `save_credentials_to_session`: the user email is
decoded from the credential's id token; without one, nothing is stored
(only a warning is logged). -/
def save_credentials_to_session (st : SessionStore) (sid : PyStr)
    (c : Creds) : SessionStore :=
  match c.id_token with
  | some email =>
    store_session st ⟨email, c.token, c.refresh_token, c.token_uri,
      c.client_id, c.client_secret, c.scopes, c.expiry, none, some sid,
      none⟩
  | none => st

/-- `auth/google_auth.py`, `load_credentials_from_session`: a plain store
lookup by MCP session id. -/
def load_credentials_from_session (st : SessionStore) (sid : PyStr) :
    Option Creds :=
  get_credentials_by_mcp_session st sid

/-- The scope check
`all(scope in credentials.scopes for scope in required_scopes)`:
vacuously true on an empty requirement, `TypeError` when the credential's
scopes are `None` and a scope must actually be tested. -/
def checkScopes (required : List PyStr) (scopes : Option (List PyStr)) :
    Except PyExc Bool :=
  match required with
  | [] => .ok true
  | _ =>
    match scopes with
    | none => .error .typeError
    | some ss => .ok (required.all fun s => decide (s ∈ ss))

-- ===================================================================
-- The credential resolver (get_credentials) and single-user scan
-- ===================================================================

/-- The credentials object `_find_any_credentials` constructs from a blob:
token, refresh token, token URI, client id/secret and scopes only — the
`expiry` keyword is never passed, so the expiry is always `None`. -/
def credsFromData (d : CredsData) : Creds :=
  ⟨d.token, d.refresh_token, d.token_uri, d.client_id, d.client_secret,
   d.scopes, none, none⟩

/-- The filename a path denotes when it lies directly inside a directory
(used to model `os.listdir`). -/
def fileNameInDir (base p : PyStr) : Option PyStr :=
  let pref := if base.getLast? = some '/' then base else base ++ ['/']
  if List.isPrefixOf pref p then
    let name := p.drop pref.length
    if name ≠ [] ∧ '/' ∉ name then some name else none
  else none

/-- `os.listdir(base_dir)`: the names of the files directly inside the
directory, in storage order. -/
def fsListDir (fs : LocalFS) (base : PyStr) : List PyStr :=
  fs.files.filterMap fun e => fileNameInDir base e.1

/-- The local scan loop of `_find_any_credentials`: first `.json` file
(case-sensitive here, unlike the S3 listing) that loads and parses wins;
`IOError`/`JSONDecodeError`/`KeyError` skip to the next file.  The
credentials are built without the stored expiry. -/
def findAnyLocal (fs : LocalFS) (base : PyStr) : List PyStr → Option Creds
  | [] => none
  | name :: rest =>
    if List.isSuffixOf ".json".toList name then
      match fsOpenJson fs (osPathJoin base name) with
      | .ok d => some (credsFromData d)
      | .error _ => findAnyLocal fs base rest
    else findAnyLocal fs base rest

/-- The S3 scan loop of `_find_any_credentials`: each listed path is
downloaded; `IOError`/`JSONDecodeError`/`KeyError`/`ValueError` skip to
the next file, while any other exception escapes to the function's outer
handler, which returns `None`. -/
def findAnyS3Loop (s3 : S3State) : List PyStr → Option Creds
  | [] => none
  | p :: rest =>
    match s3_download_json s3 p with
    | .ok d => some (credsFromData d)
    | .error .ioError => findAnyS3Loop s3 rest
    | .error .jsonDecodeError => findAnyS3Loop s3 rest
    | .error .keyError => findAnyS3Loop s3 rest
    | .error .valueError => findAnyS3Loop s3 rest
    | .error _ => none

/-- `auth/google_auth.py`, `_find_any_credentials`: the single-user-mode
scan over the configured storage location; every failure (including a
failing S3 listing) degrades to `None`. -/
def _find_any_credentials (fs : LocalFS) (s3 : S3State) (base : PyStr)
    (psz : Nat) (hp : 0 < psz) : Option Creds :=
  if is_s3_path (some base) then
    match s3_list_json_files s3 base psz hp with
    | .error _ => none
    | .ok files => findAnyS3Loop s3 files
  else
    if fsExists fs base = false then none
    else findAnyLocal fs base (fsListDir fs base)

/-- The world `get_credentials` runs against: both storage backends, the
session store, the single-user-mode flag, the current time
(`datetime.utcnow()` in microseconds), the token-endpoint refresh outcome
per refresh token, the `get_user_info` outcome, and the S3 backend's
positive page size. -/
structure GcEnv where
  fs : LocalFS
  s3 : S3State
  store : SessionStore
  singleUser : Bool
  now : Int
  refresh : PyStr → RefreshResult
  userInfoEmail : Option PyStr
  psz : Nat
  hpsz : 0 < psz

/-- What a `get_credentials` call produces: its return value (or escaped
exception), the resulting storage and session-store states, and whether a
token refresh was attempted. -/
structure GcResult where
  res : Except PyExc (Option Creds)
  fs : LocalFS
  s3 : S3State
  store : SessionStore
  refreshed : Bool
deriving DecidableEq, Repr

/-- Outcome of the OAuth 2.1 session-path phase of `get_credentials`
(lines 833-875): either a returned result, or a fall-through to the rest
of the function (every fall-through leaves the state unchanged — the
`except Exception` handler there only logs). -/
inductive Phase1Out
  | done (r : GcResult)
  | fall
deriving Repr

/-- `get_credentials` lines 833-875: with a (truthy) session id, look the
MCP session up in the OAuth 2.1 store; check scopes (a `TypeError` from
`None` scopes is swallowed by the surrounding `except Exception`, falling
through); return valid credentials; refresh expired ones with a refresh
token, updating only the session store (with just the token, refresh
token, scopes and expiry) when the session still maps to a (truthy) user
email; any refresh failure returns `None`. -/
def gcPhase1 (env : GcEnv) (required_scopes : List PyStr)
    (session_id : Option PyStr) : Phase1Out :=
  match session_id with
  | none => .fall
  | some sid =>
    if sid.isEmpty then .fall
    else
      match get_credentials_by_mcp_session env.store sid with
      | none => .fall
      | some c =>
        match checkScopes required_scopes c.scopes with
        | .error _ => .fall
        | .ok false => .done ⟨.ok none, env.fs, env.s3, env.store, false⟩
        | .ok true =>
          if pyValid env.now c then
            .done ⟨.ok (some c), env.fs, env.s3, env.store, false⟩
          else if pyExpired env.now c && pyTruthy c.refresh_token then
            match c.refresh_token with
            | none => .fall
            | some rt =>
              match env.refresh rt with
              | .success nt nr ne nit =>
                let c2 := applyRefresh c nt nr ne nit
                let store2 :=
                  match get_user_by_mcp_session env.store sid with
                  | some em =>
                    if em.isEmpty then env.store
                    else store_session env.store ⟨em, c2.token,
                      c2.refresh_token, none, none, none, c2.scopes,
                      c2.expiry, none, some sid, none⟩
                  | none => env.store
                .done ⟨.ok (some c2), env.fs, env.s3, store2, true⟩
              | .refreshError =>
                .done ⟨.ok none, env.fs, env.s3, env.store, true⟩
              | .otherError =>
                .done ⟨.ok none, env.fs, env.s3, env.store, true⟩
          else .fall

/-- Outcome of the bundle-locating phase of `get_credentials`
(lines 877-942): a located bundle together with the (possibly
single-user-mode-extracted) user email and the session store (which the
file path may have updated via `save_credentials_to_session`), or "no
credential", or an exception escaping from `load_credentials_from_file`. -/
inductive Phase2Out
  | found (c : Creds) (email : Option PyStr) (store : SessionStore)
  | nocred (store : SessionStore)
  | raised (e : PyExc) (store : SessionStore)
deriving Repr

/-- `get_credentials` lines 877-942: in single-user mode, scan storage for
any bundle and opportunistically resolve the user email from `get_user_info`
when none was supplied and the bundle is valid; otherwise try the session
store (again) by session id, then the credential file keyed by the user id
(preferred) or email, caching a file hit into the session store. -/
def gcPhase2 (env : GcEnv) (user_google_email : Option PyStr)
    (user_id : Option PyStr) (session_id : Option PyStr)
    (credentials_base_dir : PyStr) : Phase2Out :=
  if env.singleUser then
    match _find_any_credentials env.fs env.s3 credentials_base_dir env.psz
        env.hpsz with
    | none => .nocred env.store
    | some c =>
      let email :=
        if pyTruthy user_google_email = false ∧ pyValid env.now c then
          match env.userInfoEmail with
          | some em => some em
          | none => user_google_email
        else user_google_email
      .found c email env.store
  else
    let c1 : Option Creds :=
      match session_id with
      | some sid =>
        if sid.isEmpty then none
        else load_credentials_from_session env.store sid
      | none => none
    match c1 with
    | some c => .found c user_google_email env.store
    | none =>
      match pyOrElse user_id user_google_email with
      | some idf =>
        if idf.isEmpty then .nocred env.store
        else
          match load_credentials_from_file env.fs env.s3 idf
              credentials_base_dir with
          | .error e => .raised e env.store
          | .ok none => .nocred env.store
          | .ok (some c) =>
            let store2 :=
              match session_id with
              | some sid =>
                if sid.isEmpty then env.store
                else save_credentials_to_session env.store sid c
              | none => env.store
            .found c user_google_email store2
      | none => .nocred env.store

/-- The `if session_id: save_credentials_to_session(...)` cache update of
the refresh path. -/
def sessionCache (st : SessionStore) (session_id : Option PyStr)
    (c : Creds) : SessionStore :=
  match session_id with
  | some sid =>
    if sid.isEmpty then st else save_credentials_to_session st sid c
  | none => st

/-- The persist block of the refresh path (`get_credentials`
lines 982-1004) for a known, truthy user email: save the refreshed bundle
to the credential file keyed by the email (a failing save is caught by the
surrounding `except Exception` and yields `None`), mirror it into the
session store with the issuer set, and cache it to the MCP session. -/
def gcSaveRefreshed (env : GcEnv) (store : SessionStore)
    (session_id : Option PyStr) (em base : PyStr) (c2 : Creds) : GcResult :=
  match save_credentials_to_file env.fs env.s3 em em c2 base with
  | .error _ => ⟨.ok none, env.fs, env.s3, store, true⟩
  | .ok (fs2, s32) =>
    let store2 := store_session store ⟨em, c2.token, c2.refresh_token,
      c2.token_uri, c2.client_id, c2.client_secret, c2.scopes, c2.expiry,
      none, session_id, some "https://accounts.google.com".toList⟩
    ⟨.ok (some c2), fs2, s32, sessionCache store2 session_id c2, true⟩

/-- `get_credentials` lines 944-1022: the uniform scope check (a
`TypeError` here propagates — this part is outside any handler), the
validity check, and the refresh path: refresh requires a (truthy) client
secrets path; on success the bundle is saved to the durable file and the
session store only when the user email is known (keyed by that email),
then cached to the MCP session; a `RefreshError` or any other failure —
including a failing save — returns `None` WITHOUT deleting anything. -/
def gcPhase3 (env : GcEnv) (required_scopes : List PyStr)
    (client_secrets_path : Option PyStr) (credentials_base_dir : PyStr)
    (session_id : Option PyStr) (c : Creds) (email : Option PyStr)
    (store : SessionStore) : GcResult :=
  match checkScopes required_scopes c.scopes with
  | .error e => ⟨.error e, env.fs, env.s3, store, false⟩
  | .ok false => ⟨.ok none, env.fs, env.s3, store, false⟩
  | .ok true =>
    if pyValid env.now c then ⟨.ok (some c), env.fs, env.s3, store, false⟩
    else if pyExpired env.now c && pyTruthy c.refresh_token then
      if pyTruthy client_secrets_path = false then
        ⟨.ok none, env.fs, env.s3, store, false⟩
      else
        match c.refresh_token with
        | none => ⟨.ok none, env.fs, env.s3, store, false⟩
        | some rt =>
          match env.refresh rt with
          | .success nt nr ne nit =>
            let c2 := applyRefresh c nt nr ne nit
            match email with
            | some em =>
              if em.isEmpty then
                ⟨.ok (some c2), env.fs, env.s3,
                  sessionCache store session_id c2, true⟩
              else
                gcSaveRefreshed env store session_id em
                  credentials_base_dir c2
            | none =>
              ⟨.ok (some c2), env.fs, env.s3,
                sessionCache store session_id c2, true⟩
          | .refreshError => ⟨.ok none, env.fs, env.s3, store, true⟩
          | .otherError => ⟨.ok none, env.fs, env.s3, store, true⟩
    else ⟨.ok none, env.fs, env.s3, store, false⟩

/-- `auth/google_auth.py`, `get_credentials`: the three phases composed —
the OAuth 2.1 session path, then the single-user or session/file bundle
search, then the uniform scope/validity/refresh decision. -/
def get_credentials (env : GcEnv) (user_google_email : Option PyStr)
    (required_scopes : List PyStr) (client_secrets_path : Option PyStr)
    (credentials_base_dir : PyStr) (session_id : Option PyStr)
    (user_id : Option PyStr) : GcResult :=
  match gcPhase1 env required_scopes session_id with
  | .done r => r
  | .fall =>
    match gcPhase2 env user_google_email user_id session_id
        credentials_base_dir with
    | .raised e store => ⟨.error e, env.fs, env.s3, store, false⟩
    | .nocred store => ⟨.ok none, env.fs, env.s3, store, false⟩
    | .found c email store =>
      gcPhase3 env required_scopes client_secrets_path
        credentials_base_dir session_id c email store

-- ===================================================================
-- The remote token verifier (_attempt_token_refresh / verify_token)
-- ===================================================================

/-- The Google token endpoint URI default used when a session record has
none. -/
def googleTokenUri : PyStr := "https://oauth2.googleapis.com/token".toList

/-- The Google issuer default. -/
def googleIssuer : PyStr := "https://accounts.google.com".toList

/-- The mutable state `_attempt_token_refresh` operates on: the session
store (scanned under its lock) and both storage backends (reached through
`delete_credentials_file` with the default credentials directory). -/
structure AtrState where
  store : SessionStore
  fs : LocalFS
  s3 : S3State
deriving DecidableEq, Repr

/-- The first-pass match of `_attempt_token_refresh`: the stored access
token equals the failed token exactly. -/
def exactCond (failed : PyStr) (r : SessionRec) : Bool :=
  decide (r.access_token = some failed)

/-- The second-pass match: a truthy stored token of length at least 20
whose first 20 characters equal the failed token's first 20 characters
(both tokens at least 20 characters long). -/
def prefCond (failed : PyStr) (r : SessionRec) : Bool :=
  match r.access_token with
  | some t =>
    (!t.isEmpty) && decide (20 ≤ t.length) && decide (20 ≤ failed.length)
      && decide (t.take 20 = failed.take 20)
  | none => false

/-- One scan pass of `_attempt_token_refresh`
(`auth/google_remote_auth_provider.py` lines 119-177 for the exact pass,
181-240 for the prefix pass; both passes have identical bodies).  For each
matching record with a truthy refresh token: build a credentials object
(token endpoint, client id and secret falling back to the provider's when
the record's are falsy, scopes defaulting to the empty list) and refresh.
Success upserts the record — preserving its session ids and defaulting the
issuer — and returns the new access token; a definitive rejection
(`RefreshError`) deletes the credential file for that email from the
default directory and removes the session, then keeps scanning; any other
failure just keeps scanning.  The scan is modelled over the snapshot of
records taken at entry, threading the mutations (the spec-modelled store
holds the lock for the whole scan). -/
def atrPass (refresh : PyStr → RefreshResult) (cid csec : Option PyStr)
    (dir : PyStr) (cond : SessionRec → Bool) :
    List SessionRec → AtrState → Option PyStr × AtrState
  | [], st => (none, st)
  | r :: rest, st =>
    if cond r then
      match r.refresh_token with
      | some rt =>
        if rt.isEmpty then atrPass refresh cid csec dir cond rest st
        else
          match refresh rt with
          | .success nt nr ne nit =>
            let c2 := applyRefresh
              ⟨none, some rt, some (r.token_uri.getD googleTokenUri),
               pyOrElse r.client_id cid, pyOrElse r.client_secret csec,
               some (r.scopes.getD []), none, none⟩ nt nr ne nit
            (some nt, ⟨store_session st.store ⟨r.user_email, c2.token,
              c2.refresh_token, c2.token_uri, c2.client_id,
              c2.client_secret, c2.scopes, c2.expiry, r.session_id,
              r.mcp_session_id, some (r.issuer.getD googleIssuer)⟩,
              st.fs, st.s3⟩)
          | .refreshError =>
            let del := delete_credentials_file st.fs st.s3 r.user_email dir
            atrPass refresh cid csec dir cond rest
              ⟨remove_session st.store r.user_email, del.2.1, del.2.2⟩
          | .otherError => atrPass refresh cid csec dir cond rest st
      | none => atrPass refresh cid csec dir cond rest st
    else atrPass refresh cid csec dir cond rest st

/-- `auth/google_remote_auth_provider.py`, `_attempt_token_refresh`: the
exact-match pass over all records first; only when it produced no
successful refresh, the prefix-match pass over the (possibly purged)
store. -/
def _attempt_token_refresh (refresh : PyStr → RefreshResult)
    (cid csec : Option PyStr) (dir : PyStr) (store : SessionStore)
    (fs : LocalFS) (s3 : S3State) (failed : PyStr) :
    Option PyStr × AtrState :=
  let p1 := atrPass refresh cid csec dir (exactCond failed) store
    ⟨store, fs, s3⟩
  match p1.1 with
  | some t => (some t, p1.2)
  | none =>
    atrPass refresh cid csec dir (prefCond failed) p1.2.store p1.2

/-- The tokeninfo endpoint's successful response body, as `verify_token`
reads it: audience, remaining lifetime, optional email and subject, and
the (split) scope list. -/
structure TokenInfo where
  aud : PyStr
  expires_in : Int
  email : Option PyStr
  sub : Option PyStr
  scope : List PyStr
deriving DecidableEq, Repr

/-- The access-token object `verify_token` builds (the fields the rest of
the system reads from the `SimpleNamespace`). -/
structure AccessTokenObj where
  token : PyStr
  scopes : List PyStr
  email : Option PyStr
  sub : Option PyStr
  expires_at : Int
deriving DecidableEq, Repr

/-- The world `verify_token` runs against: the tokeninfo introspection
outcome per token (none is a non-200 response), the token endpoint, the
provider's client id and secret, the default credentials directory, the
parent JWT verifier for non-opaque tokens, the ambient FastMCP session id,
and the current wall-clock second. -/
structure VerifyEnv where
  introspect : PyStr → Option TokenInfo
  refresh : PyStr → RefreshResult
  clientId : PyStr
  clientSecret : Option PyStr
  defaultDir : PyStr
  jwtVerify : PyStr → Option AccessTokenObj
  mcpSid : Option PyStr
  nowSec : Int

/-- `auth/google_remote_auth_provider.py`, `verify_token`: opaque `ya29.`
tokens are introspected at the tokeninfo endpoint; an introspection
failure triggers exactly one recovery attempt through
`_attempt_token_refresh`, whose new token is recursively re-verified
(`fuel` bounds the recursion; 0 is exhaustion).  A successful
introspection checks the audience and remaining lifetime, upserts a
session-store record for the token's email, and returns the access-token
object.  Non-opaque tokens go through the parent JWT verifier, with the
same session upsert on success. -/
def verify_token (env : VerifyEnv) :
    Nat → AtrState → PyStr → Option AccessTokenObj × AtrState
  | 0, st, _ => (none, st)
  | fuel + 1, st, token =>
    if List.isPrefixOf "ya29.".toList token then
      match env.introspect token with
      | none =>
        match _attempt_token_refresh env.refresh (some env.clientId)
            env.clientSecret env.defaultDir st.store st.fs st.s3 token with
        | (some t2, st2) => verify_token env fuel st2 t2
        | (none, st2) => (none, st2)
      | some info =>
        if info.aud ≠ env.clientId then (none, st)
        else if info.expires_in ≤ 0 then (none, st)
        else
          let atok : AccessTokenObj := ⟨token, info.scope, info.email,
            info.sub, env.nowSec + info.expires_in⟩
          match info.email with
          | some em =>
            (some atok, ⟨store_session st.store ⟨em, some token, none,
              none, none, none, some info.scope, none,
              some ("google_".toList ++ info.sub.getD "unknown".toList),
              env.mcpSid, some googleIssuer⟩, st.fs, st.s3⟩)
          | none => (some atok, st)
    else
      match env.jwtVerify token with
      | none => (none, st)
      | some atok =>
        match atok.email with
        | some em =>
          (some atok, ⟨store_session st.store ⟨em, some token, none, none,
            none, none, some atok.scopes, none,
            some ("google_".toList ++ atok.sub.getD "unknown".toList),
            none, some googleIssuer⟩, st.fs, st.s3⟩)
        | none => (some atok, st)

-- ===================================================================
-- Concrete sample values (used to evaluate the theorems on inputs)
-- ===================================================================

/-- A sample credential bundle with every field populated and a naive
expiry. -/
def sampleBundle : Creds :=
  ⟨some "tok1".toList, some "rtok1".toList,
   some "https://oauth2.googleapis.com/token".toList,
   some "cid".toList, some "csec".toList,
   some ["scope.a".toList, "scope.b".toList],
   some ⟨2024, 1, 2, 3, 4, 5, 0⟩, none⟩

/-- A sample bundle with no refresh token and a null expiry. -/
def sampleBundleSparse : Creds :=
  ⟨some "tok2".toList, none, none, none, none, some [], none, none⟩

/-- An object store with one empty accessible bucket `b`. -/
def sampleS3 : S3State := ⟨["b".toList], [], []⟩

/-- An empty local filesystem. -/
def sampleFS : LocalFS := ⟨[], []⟩

/-- An expired bundle carrying a refresh token. -/
def expiredBundle : Creds :=
  ⟨some "tokOld".toList, some "rt1".toList,
   some "https://oauth2.googleapis.com/token".toList, some "cid".toList,
   some "csec".toList, some ["scope.a".toList],
   some ⟨2020, 1, 1, 0, 0, 0, 0⟩, none⟩

/-- A local filesystem holding `expiredBundle` for `e@x` under `/d`. -/
def expiredFS : LocalFS :=
  fsPut sampleFS (_get_user_credential_path "e@x".toList "/d".toList)
    (.jsonFile (encodeCreds expiredBundle "e@x".toList))

/-- A current time (microseconds since epoch, about 2023-11) at which
`expiredBundle` counts as expired. -/
def sampleNow : Int := 1700000000000000

/-- A token endpoint that definitively rejects every refresh token. -/
def rejectOracle : PyStr → RefreshResult := fun _ => .refreshError

/-- A token endpoint that accepts `rt1` and mints `tokNew` with a far
future expiry. -/
def acceptOracle : PyStr → RefreshResult := fun rt =>
  if rt = "rt1".toList then
    .success "tokNew".toList none (some ⟨2030, 1, 1, 0, 0, 0, 0⟩) none
  else .refreshError

/-- The resolver world for the definitive-rejection scenario: the expired
bundle on disk, nothing in the session store, every refresh rejected. -/
def rejectEnv : GcEnv :=
  ⟨expiredFS, sampleS3, [], false, sampleNow, rejectOracle, none, 1000,
   Nat.succ_pos 999⟩

/-- A session store mapping MCP session `sid1` to `e@x` with an expired
access token and refresh token `rt1`. -/
def sidStore : SessionStore :=
  [⟨"e@x".toList, some "tokOld".toList, some "rt1".toList, none, none,
    none, some ["scope.a".toList], some ⟨2020, 1, 1, 0, 0, 0, 0⟩, none,
    some "sid1".toList, none⟩]

/-- The resolver world for the session-path refresh scenario: empty
durable storage, the expired session record, refresh accepted. -/
def sidEnv : GcEnv :=
  ⟨sampleFS, sampleS3, sidStore, false, sampleNow, acceptOracle, none,
   1000, Nat.succ_pos 999⟩

/-- An opaque Google access token (21 characters, `ya29.` prefix) that
fails verification. -/
def vFailedTok : PyStr := "ya29.oldtoken01234567".toList

/-- A session record holding exactly the failed token plus refresh token
`rt1`. -/
def vRec : SessionRec :=
  ⟨"e@x".toList, some vFailedTok, some "rt1".toList, none, none, none,
   some ["scope.a".toList], none, none, none, none⟩

/-- The verifier's session store: just `vRec`. -/
def vStore : SessionStore := [vRec]

/-- A verifier world whose tokeninfo endpoint rejects everything and whose
token endpoint accepts `rt1`. -/
def vEnv : VerifyEnv :=
  ⟨fun _ => none, acceptOracle, "cid".toList, none, "/d".toList,
   fun _ => none, none, 0⟩

-- ===================================================================
-- THEOREMS
-- ===================================================================

/-- Stripping the empty string gives the empty string. -/
theorem pyStrip_nil : pyStrip [] = [] := rfl

/-- If the stripped string is empty, the scheme test fails. -/
theorem hasS3Scheme_of_strip_nil {p : PyStr} (h : pyStrip p = []) :
    hasS3Scheme p = false := by
  simp [hasS3Scheme, h, pyLower, List.isPrefixOf]

/-- C7: `is_s3_path` returns true exactly for strings whose scheme (ignoring
surrounding whitespace, case-insensitively) is `s3://`; it returns false for
every other string, and in particular for `None`, the empty string, and
whitespace-only strings. -/
theorem c7_is_s3_path_spec (p : PyStr) :
    (hasS3Scheme p = true → is_s3_path (some p) = true) ∧
    (hasS3Scheme p = false → is_s3_path (some p) = false) ∧
    is_s3_path none = false ∧
    is_s3_path (some []) = false ∧
    ((pyStrip p).isEmpty = true → is_s3_path (some p) = false) := by
  refine ⟨?_, ?_, rfl, rfl, ?_⟩
  · intro h
    by_cases hs : (pyStrip p).isEmpty
    · rw [List.isEmpty_iff] at hs
      rw [hasS3Scheme_of_strip_nil hs] at h
      exact absurd h (by simp)
    · have hp : p ≠ [] := by
        intro hnil
        rw [hnil, pyStrip_nil] at hs
        exact hs rfl
      have hpe : p.isEmpty = false := by
        cases p with
        | nil => exact absurd rfl hp
        | cons a l => rfl
      have hse : (pyStrip p).isEmpty = false := by
        cases hh : (pyStrip p).isEmpty with
        | false => rfl
        | true => exact absurd hh hs
      simp only [is_s3_path, hpe, hse, Bool.or_self, if_false]
      exact h
  · intro h
    simp only [is_s3_path]
    split
    · rfl
    · exact h
  · intro h
    rw [List.isEmpty_iff] at h
    simp only [is_s3_path]
    rw [if_pos]
    simp [h]

/-- C7 witness: the theorem applied at concrete inputs, discharging the
hypotheses of its conditional conjuncts. -/
theorem c7_is_s3_path_spec_witness :
    is_s3_path (some "S3://my-bucket/creds/".toList) = true ∧
    is_s3_path (some "/local/path".toList) = false ∧
    is_s3_path (some "   ".toList) = false := by
  refine ⟨(c7_is_s3_path_spec _).1 (by decide),
          (c7_is_s3_path_spec _).2.1 (by decide),
          (c7_is_s3_path_spec _).2.2.2.2 (by decide)⟩

/-- Reading back a printed decimal digit. -/
theorem digitVal_digitChar {d : Nat} (h : d < 10) :
    digitVal (digitChar d) = some d := by
  interval_cases d <;> decide

/-- Reading back a printed two-digit number. -/
theorem read2_pad2 (n : Nat) (r : PyStr) (h : n ≤ 99) :
    read2 (pad2 n ++ r) = some (n, r) := by
  have h1 : n / 10 < 10 := by omega
  have h2 : n % 10 < 10 := by omega
  simp only [pad2, List.cons_append, List.nil_append, read2,
    digitVal_digitChar h1, digitVal_digitChar h2, Option.bind_eq_bind,
    Option.some_bind, Option.some.injEq, Prod.mk.injEq, and_true]
  omega

/-- Reading back a printed four-digit number. -/
theorem read4_pad4 (n : Nat) (r : PyStr) (h : n ≤ 9999) :
    read4 (pad4 n ++ r) = some (n, r) := by
  have h1 : n / 1000 < 10 := by omega
  have h2 : n / 100 % 10 < 10 := by omega
  have h3 : n / 10 % 10 < 10 := by omega
  have h4 : n % 10 < 10 := by omega
  simp only [pad4, List.cons_append, List.nil_append, read4,
    digitVal_digitChar h1, digitVal_digitChar h2, digitVal_digitChar h3,
    digitVal_digitChar h4, Option.bind_eq_bind, Option.some_bind,
    Option.some.injEq, Prod.mk.injEq, and_true]
  omega

/-- Reading back a printed six-digit number. -/
theorem read6_pad6 (n : Nat) (r : PyStr) (h : n ≤ 999999) :
    read6 (pad6 n ++ r) = some (n, r) := by
  have h1 : n / 100000 < 10 := by omega
  have h2 : n / 10000 % 10 < 10 := by omega
  have h3 : n / 1000 % 10 < 10 := by omega
  have h4 : n / 100 % 10 < 10 := by omega
  have h5 : n / 10 % 10 < 10 := by omega
  have h6 : n % 10 < 10 := by omega
  simp only [pad6, List.cons_append, List.nil_append, read6,
    digitVal_digitChar h1, digitVal_digitChar h2, digitVal_digitChar h3,
    digitVal_digitChar h4, digitVal_digitChar h5, digitVal_digitChar h6,
    Option.bind_eq_bind, Option.some_bind, Option.some.injEq, Prod.mk.injEq,
    and_true]
  omega

/-- The expected character at the head of the string is consumed. -/
theorem expectChar_cons_self (c : Char) (r : PyStr) :
    expectChar c (c :: r) = some r := by
  simp [expectChar]

/-- The fraction parser on a string with no leading dot. -/
theorem parseIsoFraction_no_dot (s : PyStr) (h : ∀ r, s ≠ '.' :: r) :
    parseIsoFraction s = some (0, s) := by
  cases s with
  | nil => rfl
  | cons a r =>
    have ha : a ≠ '.' := fun hc => h r (by rw [hc])
    simp [parseIsoFraction]

/-- The fraction parser on a printed nonzero microsecond fraction. -/
theorem parseIsoFraction_dot (r : PyStr) :
    parseIsoFraction ('.' :: r) = read6 r := rfl

/-- Parsing back the ISO rendering of a well-formed naive datetime recovers
it exactly, with no UTC offset. -/
theorem pyFromIsoformat_pyIsoformat (d : PyDateTime) (h : d.Wf) :
    pyFromIsoformat (pyIsoformat d) = some (d, none) := by
  obtain ⟨hy1, hy2, hm1, hm2, hd1, hd2, hh, hmi, hs, hus⟩ := h
  have H4 : ∀ r, read4 (pad4 d.year ++ r) = some (d.year, r) :=
    fun r => read4_pad4 _ r (by omega)
  have Hmo : ∀ r, read2 (pad2 d.month ++ r) = some (d.month, r) :=
    fun r => read2_pad2 _ r (by omega)
  have Hdy : ∀ r, read2 (pad2 d.day ++ r) = some (d.day, r) := by
    have : daysInMonth d.year d.month ≤ 31 := by
      unfold daysInMonth
      split
      · split <;> omega
      · split <;> omega
    exact fun r => read2_pad2 _ r (by omega)
  have Hh : ∀ r, read2 (pad2 d.hour ++ r) = some (d.hour, r) :=
    fun r => read2_pad2 _ r (by omega)
  have Hmi : ∀ r, read2 (pad2 d.minute ++ r) = some (d.minute, r) :=
    fun r => read2_pad2 _ r (by omega)
  have Hse : ∀ r, read2 (pad2 d.second ++ r) = some (d.second, r) :=
    fun r => read2_pad2 _ r (by omega)
  have hok : dtOk ⟨d.year, d.month, d.day, d.hour, d.minute,
      d.second, d.micro⟩ = true := by
    simp only [dtOk, Bool.and_eq_true, decide_eq_true_eq]
    exact ⟨⟨⟨⟨⟨⟨⟨⟨⟨hy1, hy2⟩, hm1⟩, hm2⟩, hd1⟩, hd2⟩, hh⟩, hmi⟩, hs⟩, hus⟩
  have heta : (⟨d.year, d.month, d.day, d.hour, d.minute, d.second,
      d.micro⟩ : PyDateTime) = d := rfl
  by_cases hz : d.micro = 0
  · have hfr : parseIsoFraction (if d.micro = 0 then ([] : PyStr)
        else '.' :: pad6 d.micro) = some (d.micro, ([] : PyStr)) := by
      rw [if_pos hz, hz]
      rfl
    simp only [pyFromIsoformat, pyIsoformat, H4, expectChar_cons_self,
      Hmo, Hdy, Hh, Hmi, Hse, hfr, parseIsoOffset, hok, if_true, heta]
  · have hfr : parseIsoFraction (if d.micro = 0 then ([] : PyStr)
        else '.' :: pad6 d.micro) = some (d.micro, ([] : PyStr)) := by
      rw [if_neg hz, parseIsoFraction_dot]
      have := read6_pad6 d.micro [] (by omega)
      simpa using this
    simp only [pyFromIsoformat, pyIsoformat, H4, expectChar_cons_self,
      Hmo, Hdy, Hh, Hmi, Hse, hfr, parseIsoOffset, hok, if_true, heta]

/-- Looking up a freshly written file finds exactly the written content. -/
theorem fsLookup_fsPut_self (fs : LocalFS) (p : PyStr) (c : FileContent) :
    fsLookup (fsPut fs p c) p = some c := by
  simp [fsLookup, fsPut]

/-- A rendered ISO datetime string is never empty. -/
theorem pyIsoformat_isEmpty (d : PyDateTime) :
    (pyIsoformat d).isEmpty = false := by
  simp [pyIsoformat, pad4]

/-- Decoding an encoded credential bundle restores it field by field, for
any bundle whose expiry (when present) is a well-formed datetime and that
carries no id token — including the cases of an absent refresh token and of
a null expiry. -/
theorem decodeCreds_encodeCreds (B : Creds) (email : PyStr)
    (hwf : ∀ e, B.expiry = some e → e.Wf) (hid : B.id_token = none) :
    decodeCreds (encodeCreds B email) = B := by
  obtain ⟨tok, rtok, uri, cid, csec, scps, exp, idtok⟩ := B
  have hid2 : idtok = none := hid
  simp only [encodeCreds, decodeCreds]
  cases exp with
  | none =>
    rw [hid2]
    rfl
  | some e =>
    have hew : e.Wf := hwf e rfl
    simp [pyFromIsoformat_pyIsoformat e hew, pyIsoformat_isEmpty e, hid2]

/-- The exception filter of the loaders passes a successful result through. -/
theorem catchLoadExc_ok (x : Option Creds) :
    catchLoadExc (.ok x) = .ok x := rfl

/-- Uploading to an existing, accessible bucket succeeds and prepends the
object. -/
theorem s3PutObject_ok (st : S3State) (b k : PyStr) (c : S3Content)
    (hb : b ∈ st.buckets) (hd : b ∉ st.denied) :
    s3PutObject st b k c = .ok (s3PutRaw st b k c) := by
  simp [s3PutObject, hb, hd]

/-- Finding a freshly put object returns its content. -/
theorem s3Find_put_self (st : S3State) (b k : PyStr) (c : S3Content) :
    s3Find (s3PutRaw st b k c) b k = some c := by
  simp [s3Find, s3PutRaw]

/-- Writing an object changes neither the bucket list nor the access
control state. -/
theorem s3PutRaw_buckets (st : S3State) (b k : PyStr) (c : S3Content) :
    (s3PutRaw st b k c).buckets = st.buckets ∧
    (s3PutRaw st b k c).denied = st.denied := ⟨rfl, rfl⟩

/-- C6: saving a valid credential bundle and loading it back yields a
bundle equal to it field by field — in particular when the refresh token is
absent (serialized as null) and when the expiry is null — and this holds on
local storage, on object storage, and therefore across a migration from
local storage to object storage and back (the loaded bundle saved to the
other backend loads back unchanged). -/
theorem c6_save_load_roundtrip
    (B : Creds) (email identifier : PyStr)
    (fs : LocalFS) (s3 : S3State) (localDir s3Dir : PyStr) (b k : PyStr)
    (hwf : ∀ e, B.expiry = some e → e.Wf)
    (hid : B.id_token = none)
    (hloc : is_s3_path
      (some (_get_user_credential_path identifier localDir)) = false)
    (hs3p : is_s3_path
      (some (_get_user_credential_path identifier s3Dir)) = true)
    (hparse : parse_s3_path
      (_get_user_credential_path identifier s3Dir) = .ok (b, k))
    (hb : b ∈ s3.buckets) (hd : b ∉ s3.denied) :
    decodeCreds (encodeCreds B email) = B ∧
    (save_credentials_to_file fs s3 identifier email B localDir =
      .ok (fsPut fs (_get_user_credential_path identifier localDir)
        (.jsonFile (encodeCreds B email)), s3) ∧
     load_credentials_from_file
        (fsPut fs (_get_user_credential_path identifier localDir)
          (.jsonFile (encodeCreds B email))) s3 identifier localDir
        = .ok (some B)) ∧
    (save_credentials_to_file fs s3 identifier email B s3Dir =
      .ok (fs, s3PutRaw s3 b k (.jsonObj (encodeCreds B email))) ∧
     load_credentials_from_file fs
        (s3PutRaw s3 b k (.jsonObj (encodeCreds B email))) identifier s3Dir
        = .ok (some B)) := by
  have hrt := decodeCreds_encodeCreds B email hwf hid
  refine ⟨hrt, ⟨?_, ?_⟩, ⟨?_, ?_⟩⟩
  · simp [save_credentials_to_file, hloc]
  · simp [load_credentials_from_file, loadCredsBody, hloc, fsExists,
      fsLookup_fsPut_self, fsOpenJson, catchLoadExc, hrt]
  · simp [save_credentials_to_file, hs3p, s3_upload_json, hparse,
      s3PutObject_ok s3 b k _ hb hd]
  · simp [load_credentials_from_file, loadCredsBody, hs3p, s3_file_exists,
      hparse, s3HeadObject, s3GetObject, s3_download_json, s3PutRaw,
      s3Find_put_self, hb, hd, catchLoadExc, hrt, s3Find]

/-- C6 witness: the round trip evaluated on a concrete bundle (all fields
set, naive expiry) on both backends, and on a sparse bundle with no refresh
token and a null expiry. -/
theorem c6_save_load_roundtrip_witness :
    load_credentials_from_file
      (fsPut sampleFS (_get_user_credential_path "u".toList "/d".toList)
        (.jsonFile (encodeCreds sampleBundle "e@x".toList))) sampleS3
      "u".toList "/d".toList = .ok (some sampleBundle) ∧
    load_credentials_from_file sampleFS
      (s3PutRaw sampleS3 "b".toList "p/u.json".toList
        (.jsonObj (encodeCreds sampleBundle "e@x".toList)))
      "u".toList "s3://b/p".toList = .ok (some sampleBundle) ∧
    decodeCreds (encodeCreds sampleBundleSparse "e@x".toList)
      = sampleBundleSparse := by
  have hw : ∀ e, sampleBundle.expiry = some e → e.Wf := by
    intro e he
    have h2 : (some (⟨2024, 1, 2, 3, 4, 5, 0⟩ : PyDateTime)
        : Option PyDateTime) = some e := he
    rw [← Option.some.inj h2]
    decide
  have h := c6_save_load_roundtrip sampleBundle "e@x".toList "u".toList
    sampleFS sampleS3 "/d".toList "s3://b/p".toList "b".toList
    "p/u.json".toList hw rfl (by decide) (by decide) (by decide)
    (by decide) (by decide)
  have h2 := c6_save_load_roundtrip sampleBundleSparse "e@x".toList
    "u".toList sampleFS sampleS3 "/d".toList "s3://b/p".toList "b".toList
    "p/u.json".toList (fun _ he => Option.noConfusion he) rfl
    (by decide) (by decide) (by decide) (by decide) (by decide)
  exact ⟨h.2.1.2, h.2.2.2, h2.1⟩

/-- Removing a file makes its path unresolvable. -/
theorem fsLookup_fsRemove_self (fs : LocalFS) (p : PyStr) :
    fsLookup (fsRemove fs p) p = none := by
  simp only [fsLookup, fsRemove, Option.map_eq_none', List.find?_eq_none,
    List.mem_filter, decide_eq_true_eq, and_imp]
  intro x _ hx
  simp [hx]

/-- A deleted object is gone; deletion preserves buckets and access
control. -/
theorem s3Find_delRaw_self (st : S3State) (b k : PyStr) :
    s3Find (s3DelRaw st b k) b k = none ∧
    (s3DelRaw st b k).buckets = st.buckets ∧
    (s3DelRaw st b k).denied = st.denied := by
  refine ⟨?_, rfl, rfl⟩
  simp only [s3Find, s3DelRaw, Option.map_eq_none', List.find?_eq_none,
    List.mem_filter, decide_eq_true_eq, and_imp]
  intro x _ hx
  simp [hx]

/-- C2 counterexample: an S3 credential blob that exists but holds invalid
JSON makes `load_credentials_from_file` raise `ValueError` (the
`s3_download_json` conversion of `JSONDecodeError` is not in the caller's
`except (IOError, json.JSONDecodeError, KeyError)` list), instead of
returning the claimed "no credential found". -/
theorem c2_counterexample :
    load_credentials_from_file sampleFS
      ⟨["b".toList], [], [⟨"b".toList, "p/u.json".toList, .badJsonObj⟩]⟩
      "u".toList "s3://b/p".toList = .error .valueError := by
  decide

/-- C2 amended: on local storage, an unreadable or malformed credential
file (and an absent one) yields "no credential found" with no exception;
on S3, an absent blob yields "no credential found", but a malformed blob
raises `ValueError`, which propagates to the caller. -/
theorem c2_load_malformed (fs : LocalFS) (s3 : S3State)
    (identifier base_dir b k : PyStr) :
    (is_s3_path (some (_get_user_credential_path identifier base_dir))
        = false →
      ((fsLookup fs (_get_user_credential_path identifier base_dir) = none ∧
        _get_user_credential_path identifier base_dir ∉ fs.dirs) ∨
       fsLookup fs (_get_user_credential_path identifier base_dir)
         = some .badJsonFile ∨
       fsLookup fs (_get_user_credential_path identifier base_dir)
         = some .unreadableFile) →
      load_credentials_from_file fs s3 identifier base_dir = .ok none) ∧
    (is_s3_path (some (_get_user_credential_path identifier base_dir))
        = true →
      parse_s3_path (_get_user_credential_path identifier base_dir)
        = .ok (b, k) →
      b ∈ s3.buckets → b ∉ s3.denied →
      (s3Find s3 b k = none →
        load_credentials_from_file fs s3 identifier base_dir = .ok none) ∧
      (s3Find s3 b k = some .badJsonObj →
        load_credentials_from_file fs s3 identifier base_dir
          = .error .valueError)) := by
  constructor
  · intro hp hcase
    rcases hcase with ⟨habs, hdir⟩ | hbad | hunr
    · simp [load_credentials_from_file, loadCredsBody, hp, fsExists, habs,
        hdir, catchLoadExc]
    · simp [load_credentials_from_file, loadCredsBody, hp, fsExists, hbad,
        fsOpenJson, catchLoadExc]
    · simp [load_credentials_from_file, loadCredsBody, hp, fsExists, hunr,
        fsOpenJson, catchLoadExc]
  · intro hp hparse hb hd
    constructor
    · intro habs
      simp [load_credentials_from_file, loadCredsBody, hp, s3_file_exists,
        hparse, s3HeadObject, hb, hd, habs, catchLoadExc]
    · intro hbad
      simp [load_credentials_from_file, loadCredsBody, hp, s3_file_exists,
        s3_download_json, hparse, s3HeadObject, s3GetObject, hb, hd, hbad,
        catchLoadExc]

/-- C2 witness: the amended behaviour evaluated at concrete inputs — a
missing local file and a missing S3 blob both load as "no credential". -/
theorem c2_load_malformed_witness :
    load_credentials_from_file sampleFS sampleS3 "u".toList "/d".toList
      = .ok none ∧
    load_credentials_from_file sampleFS sampleS3 "u".toList
      "s3://b/p".toList = .ok none := by
  have h := c2_load_malformed sampleFS sampleS3 "u".toList "/d".toList
    "b".toList "p/u.json".toList
  have h2 := c2_load_malformed sampleFS sampleS3 "u".toList
    "s3://b/p".toList "b".toList "p/u.json".toList
  exact ⟨h.1 (by decide) (Or.inl ⟨by decide, by decide⟩),
    (h2.2 (by decide) (by decide) (by decide) (by decide)).1 (by decide)⟩

/-- C8 counterexample: deleting an absent local credential file returns
`False` (the code's "didn't exist" result), not the success the claim
asserts for every storage location. -/
theorem c8_counterexample :
    (delete_credentials_file sampleFS sampleS3 "u".toList "/d".toList).1
      = false := by
  decide

/-- C8 amended: deletion never raises (every failure is reported as a
`False` return).  On S3 it is idempotent success: deleting an absent blob
returns `True`, twice in a row; a missing bucket is reported as `False`
(the underlying `s3_delete_file` raises `NoSuchBucket`, which
`delete_credentials_file` catches).  On local storage, deleting a present
file returns `True` and removes it, and deleting an absent file — in
particular the second of two consecutive deletes — returns `False` without
raising. -/
theorem c8_delete_idempotent (fs : LocalFS) (s3 : S3State)
    (identifier base_dir b k : PyStr) :
    (is_s3_path (some (_get_user_credential_path identifier base_dir))
        = true →
      parse_s3_path (_get_user_credential_path identifier base_dir)
        = .ok (b, k) →
      (b ∈ s3.buckets → b ∉ s3.denied →
        delete_credentials_file fs s3 identifier base_dir
          = (true, fs, s3DelRaw s3 b k) ∧
        delete_credentials_file fs (s3DelRaw s3 b k) identifier base_dir
          = (true, fs, s3DelRaw (s3DelRaw s3 b k) b k) ∧
        s3Find (s3DelRaw s3 b k) b k = none) ∧
      (b ∉ s3.buckets → b ∉ s3.denied →
        s3_delete_file s3 (_get_user_credential_path identifier base_dir)
          = .error .clientNoSuchBucket ∧
        delete_credentials_file fs s3 identifier base_dir
          = (false, fs, s3))) ∧
    (is_s3_path (some (_get_user_credential_path identifier base_dir))
        = false →
      (fsLookup fs (_get_user_credential_path identifier base_dir) = none →
        delete_credentials_file fs s3 identifier base_dir
          = (false, fs, s3)) ∧
      (∀ c, fsLookup fs (_get_user_credential_path identifier base_dir)
          = some c →
        delete_credentials_file fs s3 identifier base_dir
          = (true, fsRemove fs
              (_get_user_credential_path identifier base_dir), s3) ∧
        delete_credentials_file
            (fsRemove fs (_get_user_credential_path identifier base_dir))
            s3 identifier base_dir
          = (false, fsRemove fs
              (_get_user_credential_path identifier base_dir), s3))) := by
  constructor
  · intro hp hparse
    constructor
    · intro hb hd
      refine ⟨?_, ?_, (s3Find_delRaw_self s3 b k).1⟩
      · simp [delete_credentials_file, hp, s3_delete_file, hparse,
          s3DeleteObject, hb, hd]
      · simp [delete_credentials_file, hp, s3_delete_file, hparse,
          s3DeleteObject, s3DelRaw, hb, hd]
    · intro hnb hd
      constructor
      · simp [s3_delete_file, hparse, s3DeleteObject, hnb, hd]
      · simp [delete_credentials_file, hp, s3_delete_file, hparse,
          s3DeleteObject, hnb, hd]
  · intro hp
    constructor
    · intro habs
      simp [delete_credentials_file, hp, habs]
    · intro c hc
      refine ⟨?_, ?_⟩
      · simp [delete_credentials_file, hp, hc]
      · simp [delete_credentials_file, hp, fsLookup_fsRemove_self]

/-- C8 witness: the amended behaviour evaluated at concrete inputs — the
S3 double-delete of an absent blob succeeds twice; the local delete of a
present file succeeds once, then reports `False`. -/
theorem c8_delete_idempotent_witness :
    (delete_credentials_file sampleFS sampleS3 "u".toList
      "s3://b/p".toList).1 = true ∧
    delete_credentials_file
      (fsPut sampleFS (_get_user_credential_path "u".toList "/d".toList)
        (.jsonFile (encodeCreds sampleBundle "e@x".toList)))
      sampleS3 "u".toList "/d".toList
      = (true, fsRemove
          (fsPut sampleFS (_get_user_credential_path "u".toList "/d".toList)
            (.jsonFile (encodeCreds sampleBundle "e@x".toList)))
          (_get_user_credential_path "u".toList "/d".toList), sampleS3) := by
  have h := c8_delete_idempotent sampleFS sampleS3 "u".toList
    "s3://b/p".toList "b".toList "p/u.json".toList
  have h2 := c8_delete_idempotent
    (fsPut sampleFS (_get_user_credential_path "u".toList "/d".toList)
      (.jsonFile (encodeCreds sampleBundle "e@x".toList)))
    sampleS3 "u".toList "/d".toList "b".toList "p/u.json".toList
  constructor
  · rw [((h.1 (by decide) (by decide)).1 (by decide) (by decide)).1]
  · exact ((h2.2 (by decide)).2
      (.jsonFile (encodeCreds sampleBundle "e@x".toList)) (by decide)).1

/-- The pagination loop accumulates, over every page, exactly the filtered
and rendered key list — independently of the page size. -/
theorem listJsonLoop_eq (b : PyStr) (psz : Nat) (hp : 0 < psz)
    (remaining acc : List PyStr) :
    listJsonLoop b psz hp remaining acc
      = acc ++ (remaining.filter isJsonKey).map (renderS3Path b) := by
  suffices h : ∀ n remaining acc, List.length remaining ≤ n →
      listJsonLoop b psz hp remaining acc
        = acc ++ (remaining.filter isJsonKey).map (renderS3Path b) from
    h remaining.length remaining acc le_rfl
  intro n
  induction n with
  | zero =>
    intro remaining acc hlen
    have hnil : remaining = [] :=
      List.eq_nil_of_length_eq_zero (Nat.le_zero.mp hlen)
    subst hnil
    rw [listJsonLoop]
    simp
  | succ n ih =>
    intro remaining acc hlen
    rw [listJsonLoop]
    by_cases hd : (remaining.drop psz).isEmpty
    · rw [dif_pos hd]
      have hdrop : remaining.drop psz = [] := by
        simpa [List.isEmpty_iff] using hd
      have h0 : remaining.filter isJsonKey
          = (remaining.take psz).filter isJsonKey := by
        conv_lhs => rw [← List.take_append_drop psz remaining]
        rw [hdrop, List.append_nil]
      rw [h0]
    · rw [dif_neg hd]
      have hlen2 : (remaining.drop psz).length ≤ n := by
        simp only [List.length_drop]
        omega
      rw [ih (remaining.drop psz) _ hlen2]
      have h0 : remaining.filter isJsonKey
          = (remaining.take psz).filter isJsonKey
            ++ (remaining.drop psz).filter isJsonKey := by
        conv_lhs => rw [← List.take_append_drop psz remaining]
        rw [List.filter_append]
      rw [h0, List.map_append, List.append_assoc]

/-- C9: for every object-store prefix, `s3_list_json_files` returns
exactly the bucket's keys under the normalized prefix whose name ends in
`.json` (case-insensitively), each rendered as a full `s3://bucket/key`
path — accumulating all pages for every positive backend page size — and
returns the empty list, never an error, when no key matches (empty,
non-existent, or non-matching prefix). -/
theorem c9_list_json_files (st : S3State) (s3_dir : PyStr) (psz : Nat)
    (hp : 0 < psz) (b pref0 : PyStr)
    (hparse : parse_s3_path s3_dir = .ok (b, pref0))
    (hb : b ∈ st.buckets) (hd : b ∉ st.denied) :
    s3_list_json_files st s3_dir psz hp
      = .ok (((s3KeysWithPref st b (normDirPref pref0)).filter
          isJsonKey).map (renderS3Path b)) ∧
    (s3KeysWithPref st b (normDirPref pref0) = [] →
      s3_list_json_files st s3_dir psz hp = .ok []) := by
  constructor
  · simp [s3_list_json_files, hparse, hb, hd, listJsonLoop_eq]
  · intro hempty
    simp [s3_list_json_files, hparse, hb, hd, listJsonLoop_eq, hempty]

/-- C9 witness: a bucket holding `p/a.json`, `p/b.JSON`, `p/c.txt` and
`q/d.json`, listed under prefix `s3://b/p` with page size 1 (forcing
pagination), returns exactly the two `.json` objects under `p/` as full
paths. -/
theorem c9_list_json_files_witness :
    s3_list_json_files
      ⟨["b".toList], [],
       [⟨"b".toList, "p/a.json".toList, .badJsonObj⟩,
        ⟨"b".toList, "p/b.JSON".toList, .badJsonObj⟩,
        ⟨"b".toList, "p/c.txt".toList, .badJsonObj⟩,
        ⟨"b".toList, "q/d.json".toList, .badJsonObj⟩]⟩
      "s3://b/p".toList 1 (by decide)
      = .ok ["s3://b/p/a.json".toList, "s3://b/p/b.JSON".toList] := by
  rw [(c9_list_json_files _ _ _ _ "b".toList "p".toList (by decide)
    (by decide) (by decide)).1]
  decide

/-- C1 counterexample: with the expired bundle stored on disk for `e@x`
and the refresh definitively rejected (`RefreshError`), `get_credentials`
returns "no credential" but deletes nothing — the durable file is still
there and a subsequent lookup for the same identity still finds the
bundle, contradicting the claimed purge of both storage layers. -/
theorem c1_counterexample :
    (get_credentials rejectEnv (some "e@x".toList) ["scope.a".toList]
      (some "cs".toList) "/d".toList none none).res = .ok none ∧
    (get_credentials rejectEnv (some "e@x".toList) ["scope.a".toList]
      (some "cs".toList) "/d".toList none none).fs = expiredFS ∧
    (get_credentials rejectEnv (some "e@x".toList) ["scope.a".toList]
      (some "cs".toList) "/d".toList none none).store = [] ∧
    load_credentials_from_file
      (get_credentials rejectEnv (some "e@x".toList) ["scope.a".toList]
        (some "cs".toList) "/d".toList none none).fs
      (get_credentials rejectEnv (some "e@x".toList) ["scope.a".toList]
        (some "cs".toList) "/d".toList none none).s3
      "e@x".toList "/d".toList = .ok (some expiredBundle) := by
  decide

/-- C1 amended: when the file-path lookup produces an expired bundle with
a refresh token and the refresh attempt fails with a definitive rejection
(`RefreshError`), `get_credentials` returns "no credential" WITHOUT
deleting the stored bundle from either the durable storage backend or the
Session Store — both states are unchanged, so a subsequent lookup for the
same identity still finds the bundle. -/
theorem c1_refresh_error_keeps_bundle
    (env : GcEnv) (em : PyStr) (required : List PyStr)
    (csp base : PyStr) (c : Creds) (rt : PyStr)
    (hsu : env.singleUser = false)
    (hload : load_credentials_from_file env.fs env.s3 em base
      = .ok (some c))
    (hem : em ≠ [])
    (hscope : checkScopes required c.scopes = .ok true)
    (hvalid : pyValid env.now c = false)
    (hexp : pyExpired env.now c = true)
    (hrt : c.refresh_token = some rt)
    (hrtne : rt ≠ [])
    (hcsp : csp ≠ [])
    (hrefresh : env.refresh rt = .refreshError) :
    get_credentials env (some em) required (some csp) base none none
      = ⟨.ok none, env.fs, env.s3, env.store, true⟩ ∧
    load_credentials_from_file env.fs env.s3 em base = .ok (some c) := by
  have hem2 : em.isEmpty = false := by
    cases em with
    | nil => exact absurd rfl hem
    | cons a l => rfl
  have hrt2 : rt.isEmpty = false := by
    cases rt with
    | nil => exact absurd rfl hrtne
    | cons a l => rfl
  have hcsp2 : csp.isEmpty = false := by
    cases csp with
    | nil => exact absurd rfl hcsp
    | cons a l => rfl
  refine ⟨?_, hload⟩
  simp [get_credentials, gcPhase1, gcPhase2, gcPhase3, hsu, hload, hscope,
    hvalid, hexp, hrt, hrefresh, pyOrElse, pyTruthy, hem2, hrt2, hcsp2,
    sessionCache]

/-- C1 witness: the amended no-deletion behaviour evaluated at the
concrete rejection scenario. -/
theorem c1_refresh_error_keeps_bundle_witness :
    get_credentials rejectEnv (some "e@x".toList) ["scope.a".toList]
      (some "cs".toList) "/d".toList none none
      = ⟨.ok none, rejectEnv.fs, rejectEnv.s3, rejectEnv.store, true⟩ := by
  exact (c1_refresh_error_keeps_bundle rejectEnv "e@x".toList
    ["scope.a".toList] "cs".toList "/d".toList expiredBundle "rt1".toList
    (by decide) (by decide) (by decide) (by decide) (by decide) (by decide)
    (by decide) (by decide) (by decide) (by decide)).1

/-- C4 counterexample: the session-id lookup path resolves the expired
bundle for MCP session `sid1`, the refresh succeeds and the refreshed
bundle (token `tokNew`) is returned — yet durable storage is never
written: a subsequent file lookup for the same identity finds nothing,
contradicting the claimed persistence to both layers. -/
theorem c4_counterexample :
    (get_credentials sidEnv none ["scope.a".toList] (some "cs".toList)
      "/d".toList (some "sid1".toList) none).res
      = .ok (some ⟨some "tokNew".toList, some "rt1".toList, none, none,
          none, some ["scope.a".toList], some ⟨2030, 1, 1, 0, 0, 0, 0⟩,
          none⟩) ∧
    (get_credentials sidEnv none ["scope.a".toList] (some "cs".toList)
      "/d".toList (some "sid1".toList) none).fs = sampleFS ∧
    load_credentials_from_file
      (get_credentials sidEnv none ["scope.a".toList] (some "cs".toList)
        "/d".toList (some "sid1".toList) none).fs
      (get_credentials sidEnv none ["scope.a".toList] (some "cs".toList)
        "/d".toList (some "sid1".toList) none).s3
      "e@x".toList "/d".toList = .ok none := by
  decide

/-- C4 amended: a successful refresh persists the updated bundle to the
Session Store on every path, but to durable storage only on the file path
and only when the user email is known, keyed by that email.  Part one: on
the session-id path the refreshed bundle is returned and only the Session
Store is updated — durable storage is untouched.  Part two: on the file
path with a known email, the refreshed bundle is written both to the
credential file (keyed by the email) and to the Session Store. -/
theorem c4_refresh_persistence
    (env : GcEnv) (required : List PyStr) (csp base : PyStr)
    (sid em : PyStr) (c : Creds) (rt nt : PyStr) (nr : Option PyStr)
    (ne : Option PyDateTime) (nit : Option PyStr)
    (hscope : checkScopes required c.scopes = .ok true)
    (hvalid : pyValid env.now c = false)
    (hexp : pyExpired env.now c = true)
    (hrt : c.refresh_token = some rt)
    (hrtne : rt ≠ [])
    (hrefresh : env.refresh rt = .success nt nr ne nit) :
    (sid ≠ [] →
      get_credentials_by_mcp_session env.store sid = some c →
      (get_credentials env none required (some csp) base (some sid) none).res
        = .ok (some (applyRefresh c nt nr ne nit)) ∧
      (get_credentials env none required (some csp) base (some sid) none).fs
        = env.fs ∧
      (get_credentials env none required (some csp) base (some sid) none).s3
        = env.s3 ∧
      (get_credentials env none required (some csp) base (some sid) none).refreshed
        = true ∧
      (get_credentials env none required (some csp) base (some sid) none).store
        = (match get_user_by_mcp_session env.store sid with
           | some em2 =>
             if em2.isEmpty then env.store
             else store_session env.store ⟨em2,
               (applyRefresh c nt nr ne nit).token,
               (applyRefresh c nt nr ne nit).refresh_token, none, none,
               none, (applyRefresh c nt nr ne nit).scopes,
               (applyRefresh c nt nr ne nit).expiry, none, some sid, none⟩
           | none => env.store)) ∧
    (env.singleUser = false → em ≠ [] → csp ≠ [] →
      load_credentials_from_file env.fs env.s3 em base = .ok (some c) →
      is_s3_path (some (_get_user_credential_path em base)) = false →
      get_credentials env (some em) required (some csp) base none none
        = ⟨.ok (some (applyRefresh c nt nr ne nit)),
           fsPut env.fs (_get_user_credential_path em base)
             (.jsonFile (encodeCreds (applyRefresh c nt nr ne nit) em)),
           env.s3,
           store_session env.store ⟨em,
             (applyRefresh c nt nr ne nit).token,
             (applyRefresh c nt nr ne nit).refresh_token,
             (applyRefresh c nt nr ne nit).token_uri,
             (applyRefresh c nt nr ne nit).client_id,
             (applyRefresh c nt nr ne nit).client_secret,
             (applyRefresh c nt nr ne nit).scopes,
             (applyRefresh c nt nr ne nit).expiry, none, none,
             some "https://accounts.google.com".toList⟩,
           true⟩) := by
  have hrt2 : rt.isEmpty = false := by
    cases rt with
    | nil => exact absurd rfl hrtne
    | cons a l => rfl
  constructor
  · intro hsid hget
    have hsid2 : sid.isEmpty = false := by
      cases sid with
      | nil => exact absurd rfl hsid
      | cons a l => rfl
    simp [get_credentials, gcPhase1, hsid2, hget, hscope, hvalid, hexp,
      hrt, hrefresh, pyTruthy, hrt2]
  · intro hsu hem hcsp hload hploc
    have hem2 : em.isEmpty = false := by
      cases em with
      | nil => exact absurd rfl hem
      | cons a l => rfl
    have hcsp2 : csp.isEmpty = false := by
      cases csp with
      | nil => exact absurd rfl hcsp
      | cons a l => rfl
    simp [get_credentials, gcPhase1, gcPhase2, gcPhase3, gcSaveRefreshed,
      hsu, hload, hscope, hvalid, hexp, hrt, hrefresh, pyOrElse, pyTruthy,
      hem2, hrt2, hcsp2, sessionCache, save_credentials_to_file, hploc]

/-- C4 witness: both parts of the amended statement evaluated — the
session path at the concrete `sid1` scenario, and the file path at the
concrete on-disk scenario with the accepting token endpoint. -/
theorem c4_refresh_persistence_witness :
    (get_credentials sidEnv none ["scope.a".toList] (some "cs".toList)
      "/d".toList (some "sid1".toList) none).fs = sidEnv.fs ∧
    (get_credentials
      ⟨expiredFS, sampleS3, [], false, sampleNow, acceptOracle, none,
       1000, Nat.succ_pos 999⟩
      (some "e@x".toList) ["scope.a".toList] (some "cs".toList)
      "/d".toList none none).fs
      = fsPut expiredFS (_get_user_credential_path "e@x".toList "/d".toList)
          (.jsonFile (encodeCreds
            (applyRefresh expiredBundle "tokNew".toList none
              (some ⟨2030, 1, 1, 0, 0, 0, 0⟩) none) "e@x".toList)) := by
  constructor
  · exact ((c4_refresh_persistence sidEnv ["scope.a".toList] "cs".toList
      "/d".toList "sid1".toList "e@x".toList (recToCreds
        ⟨"e@x".toList, some "tokOld".toList, some "rt1".toList, none, none,
         none, some ["scope.a".toList], some ⟨2020, 1, 1, 0, 0, 0, 0⟩,
         none, some "sid1".toList, none⟩)
      "rt1".toList "tokNew".toList none (some ⟨2030, 1, 1, 0, 0, 0, 0⟩)
      none (by decide) (by decide) (by decide) (by decide) (by decide)
      (by decide)).1 (by decide) (by decide)).2.1
  · rw [((c4_refresh_persistence
      ⟨expiredFS, sampleS3, [], false, sampleNow, acceptOracle, none,
       1000, Nat.succ_pos 999⟩
      ["scope.a".toList] "cs".toList "/d".toList "sid1".toList
      "e@x".toList expiredBundle "rt1".toList "tokNew".toList none
      (some ⟨2030, 1, 1, 0, 0, 0, 0⟩) none (by decide) (by decide)
      (by decide) (by decide) (by decide) (by decide)).2 (by decide)
      (by decide) (by decide) (by decide) (by decide))]

/-- Projection of a literal resolver result. -/
theorem gcRes_mk (x : Except PyExc (Option Creds)) (f : LocalFS)
    (s : S3State) (st : SessionStore) (b : Bool) :
    (⟨x, f, s, st, b⟩ : GcResult).res = x := rfl

/-- A passing scope check means every required scope is granted. -/
theorem checkScopes_spec (req : List PyStr) (sc : Option (List PyStr))
    (h : checkScopes req sc = .ok true) :
    ∀ s ∈ req, ∃ ss, sc = some ss ∧ s ∈ ss := by
  intro s hs
  cases req with
  | nil => cases hs
  | cons a l =>
    cases sc with
    | none => exact absurd h (by simp [checkScopes])
    | some ss =>
      refine ⟨ss, rfl, ?_⟩
      have hall : (a :: l).all (fun s => decide (s ∈ ss)) = true := by
        simpa [checkScopes] using h
      have := List.all_eq_true.mp hall s hs
      simpa using this

/-- A refresh never changes the granted scopes. -/
theorem applyRefresh_scopes (c : Creds) (nt : PyStr) (nr : Option PyStr)
    (ne : Option PyDateTime) (nit : Option PyStr) :
    (applyRefresh c nt nr ne nit).scopes = c.scopes := rfl

/-- Every bundle the session-path phase returns passed the scope check. -/
theorem gcPhase1_scope_ok (env : GcEnv) (rs : List PyStr)
    (sid : Option PyStr) (r : GcResult) (c : Creds)
    (h1 : gcPhase1 env rs sid = .done r) (h2 : r.res = .ok (some c)) :
    checkScopes rs c.scopes = .ok true := by
  unfold gcPhase1 at h1
  repeat' split at h1
  all_goals try exact Phase1Out.noConfusion h1
  all_goals (injection h1 with h3
             subst h3)
  all_goals try simp only [gcRes_mk, Except.ok.injEq, Option.some.injEq,
    reduceCtorEq] at h2
  all_goals first
    | (subst h2
       simp_all [applyRefresh])
    | simp_all [applyRefresh]

/-- The persist block returns (at most) exactly the bundle given to it. -/
theorem gcSaveRefreshed_res (env : GcEnv) (store : SessionStore)
    (sid : Option PyStr) (em base : PyStr) (c2 c3 : Creds)
    (h : (gcSaveRefreshed env store sid em base c2).res = .ok (some c3)) :
    c2 = c3 := by
  unfold gcSaveRefreshed at h
  repeat' split at h
  all_goals simp_all [gcRes_mk]

/-- Every bundle the final phase returns passed the scope check. -/
theorem gcPhase3_scope_ok (env : GcEnv) (rs : List PyStr)
    (csp : Option PyStr) (bd : PyStr) (sid : Option PyStr) (c : Creds)
    (email : Option PyStr) (store : SessionStore) (c2 : Creds)
    (h : (gcPhase3 env rs csp bd sid c email store).res = .ok (some c2)) :
    checkScopes rs c2.scopes = .ok true := by
  unfold gcPhase3 at h
  repeat' split at h
  all_goals try (replace h := gcSaveRefreshed_res _ _ _ _ _ _ _ h)
  all_goals try simp only [gcRes_mk, Except.ok.injEq, Option.some.injEq,
    reduceCtorEq] at h
  all_goals first
    | (subst h
       simp_all [applyRefresh])
    | simp_all [applyRefresh]

/-- C5: whenever `get_credentials` returns a bundle — by any lookup path
and whatever the bundle's validity — every required scope is a member of
the bundle's granted scopes; a bundle lacking a required scope is never
returned. -/
theorem c5_scope_sufficient (env : GcEnv) (ug : Option PyStr)
    (required : List PyStr) (csp : Option PyStr) (base : PyStr)
    (sid : Option PyStr) (uid : Option PyStr) (c : Creds)
    (h : (get_credentials env ug required csp base sid uid).res
      = .ok (some c)) :
    ∀ s ∈ required, ∃ ss, c.scopes = some ss ∧ s ∈ ss := by
  apply checkScopes_spec
  unfold get_credentials at h
  split at h
  · exact gcPhase1_scope_ok env required sid _ c (by assumption) h
  · split at h
    · exact absurd h (by simp)
    · exact absurd h (by simp)
    · exact gcPhase3_scope_ok env required csp base sid _ _ _ c h

/-- C5 witness: the concrete `sid1` session record lacks the required
scope `scope.z`, and the resolver reports absence even though the bundle
exists (spec §8's concrete scenario); on sufficient scopes the returned
bundle contains every required scope. -/
theorem c5_scope_sufficient_witness :
    (get_credentials sidEnv none ["scope.z".toList] (some "cs".toList)
      "/d".toList (some "sid1".toList) none).res = .ok none ∧
    (∃ ss, (⟨some "tokNew".toList, some "rt1".toList, none, none, none,
        some ["scope.a".toList], some ⟨2030, 1, 1, 0, 0, 0, 0⟩, none⟩
          : Creds).scopes = some ss ∧ "scope.a".toList ∈ ss) := by
  constructor
  · decide
  · exact c5_scope_sufficient sidEnv none ["scope.a".toList]
      (some "cs".toList) "/d".toList (some "sid1".toList) none _
      (by decide) "scope.a".toList (by decide)

/-- The single-user scan builds credentials without an expiry. -/
theorem credsFromData_expiry (d : CredsData) :
    (credsFromData d).expiry = none := rfl

/-- Every bundle the local single-user scan returns has no expiry. -/
theorem findAnyLocal_expiry (fs : LocalFS) (base : PyStr) :
    ∀ names c, findAnyLocal fs base names = some c → c.expiry = none := by
  intro names
  induction names with
  | nil =>
    intro c hc
    exact absurd hc (by simp [findAnyLocal])
  | cons n rest ih =>
    intro c hc
    unfold findAnyLocal at hc
    repeat' split at hc
    all_goals first
      | (injection hc with h2
         rw [← h2]
         rfl)
      | exact ih c hc
      | exact absurd hc (by simp)

/-- Every bundle the S3 single-user scan returns has no expiry. -/
theorem findAnyS3Loop_expiry (s3 : S3State) :
    ∀ paths c, findAnyS3Loop s3 paths = some c → c.expiry = none := by
  intro paths
  induction paths with
  | nil =>
    intro c hc
    exact absurd hc (by simp [findAnyS3Loop])
  | cons p rest ih =>
    intro c hc
    unfold findAnyS3Loop at hc
    repeat' split at hc
    all_goals first
      | (injection hc with h2
         rw [← h2]
         rfl)
      | exact ih c hc
      | exact absurd hc (by simp)

/-- Every bundle `_find_any_credentials` returns has no expiry, whatever
expiry the stored blob recorded. -/
theorem find_any_expiry (fs : LocalFS) (s3 : S3State) (base : PyStr)
    (psz : Nat) (hp : 0 < psz) (c : Creds)
    (hc : _find_any_credentials fs s3 base psz hp = some c) :
    c.expiry = none := by
  unfold _find_any_credentials at hc
  repeat' split at hc
  all_goals first
    | exact absurd hc (by simp)
    | exact findAnyS3Loop_expiry s3 _ c hc
    | exact findAnyLocal_expiry fs base _ c hc

/-- A bundle without expiry information is never classified expired. -/
theorem pyExpired_none (now : Int) (c : Creds) (h : c.expiry = none) :
    pyExpired now c = false := by
  unfold pyExpired
  rw [h]

/-- On a bundle that never counts as expired, the final phase never enters
the refresh path and any bundle it returns is the located one. -/
theorem gcPhase3_no_refresh (env : GcEnv) (rs : List PyStr)
    (csp : Option PyStr) (bd : PyStr) (sid : Option PyStr) (c : Creds)
    (email : Option PyStr) (store : SessionStore)
    (hpe : pyExpired env.now c = false) :
    (gcPhase3 env rs csp bd sid c email store).refreshed = false ∧
    (∀ c2, (gcPhase3 env rs csp bd sid c email store).res = .ok (some c2) →
      c2 = c) := by
  unfold gcPhase3
  rw [hpe]
  repeat' split
  all_goals simp_all [gcRes_mk]

/-- C10: the single-user-mode scan always constructs the returned bundle
without an expiry (even when the stored file records one); consequently,
in single-user mode (with no MCP session id in play) the resolver never
classifies that bundle as expired, never enters the refresh path, and any
bundle it returns has no expiry. -/
theorem c10_single_user_no_refresh (env : GcEnv) (ug : Option PyStr)
    (required : List PyStr) (csp : Option PyStr) (base : PyStr)
    (uid : Option PyStr) (hsu : env.singleUser = true) :
    (∀ c, _find_any_credentials env.fs env.s3 base env.psz env.hpsz
      = some c → c.expiry = none) ∧
    (get_credentials env ug required csp base none uid).refreshed
      = false ∧
    (∀ c, (get_credentials env ug required csp base none uid).res
      = .ok (some c) → c.expiry = none) := by
  refine ⟨fun c hc => find_any_expiry env.fs env.s3 base env.psz env.hpsz
    c hc, ?_⟩
  have h1 : gcPhase1 env required none = .fall := rfl
  unfold get_credentials
  rw [h1]
  cases hfa : _find_any_credentials env.fs env.s3 base env.psz env.hpsz with
  | none =>
    have h2 : gcPhase2 env ug uid none base = .nocred env.store := by
      simp [gcPhase2, hsu, hfa]
    rw [h2]
    refine ⟨rfl, ?_⟩
    intro c hc
    exact absurd hc (by simp [gcRes_mk])
  | some c =>
    have h2 : ∃ email, gcPhase2 env ug uid none base
        = .found c email env.store := by
      simp only [gcPhase2, hsu, if_true, hfa]
      exact ⟨_, rfl⟩
    obtain ⟨email, h2⟩ := h2
    rw [h2]
    have hexp0 : c.expiry = none :=
      find_any_expiry env.fs env.s3 base env.psz env.hpsz c hfa
    have hpe : pyExpired env.now c = false := pyExpired_none env.now c hexp0
    have h3 := gcPhase3_no_refresh env required csp base none c email
      env.store hpe
    refine ⟨h3.1, ?_⟩
    intro c2 hc2
    rw [h3.2 c2 hc2]
    exact hexp0

/-- C10 witness: a single-user world whose only stored file records an
expiry; the resolver returns the bundle with no expiry and no refresh is
attempted. -/
theorem c10_single_user_no_refresh_witness :
    (get_credentials
      ⟨expiredFS, sampleS3, [], true, sampleNow, rejectOracle, none, 1000,
       Nat.succ_pos 999⟩
      none ["scope.a".toList] (some "cs".toList) "/d".toList none
      none).refreshed = false := by
  exact (c10_single_user_no_refresh
    ⟨expiredFS, sampleS3, [], true, sampleNow, rejectOracle, none, 1000,
     Nat.succ_pos 999⟩
    none ["scope.a".toList] (some "cs".toList) "/d".toList none
    (by decide)).2.1

/-- Absence of a file survives removing another. -/
theorem fsLookup_fsRemove_none (fs : LocalFS) (q p : PyStr)
    (h : fsLookup fs p = none) : fsLookup (fsRemove fs q) p = none := by
  simp only [fsLookup, fsRemove, Option.map_eq_none', List.find?_eq_none,
    List.mem_filter, decide_eq_true_eq, and_imp] at h ⊢
  intro x hx _
  exact h x hx

/-- Membership after a session removal. -/
theorem mem_remove_session (st : SessionStore) (em : PyStr)
    (q : SessionRec) (h : q ∈ remove_session st em) :
    q ∈ st ∧ q.user_email ≠ em := by
  simp only [remove_session, List.mem_filter, decide_eq_true_eq] at h
  exact h

/-- Absence of a file survives any credential deletion. -/
theorem delete_fs_absent (fs : LocalFS) (s3 : S3State) (idf dir p : PyStr)
    (h : fsLookup fs p = none) :
    fsLookup (delete_credentials_file fs s3 idf dir).2.1 p = none := by
  unfold delete_credentials_file
  dsimp only
  repeat' split
  all_goals first
    | exact h
    | exact fsLookup_fsRemove_none fs _ p h

/-- Deleting a local credential file leaves its path unresolvable (whether
or not it existed). -/
theorem delete_local_self (fs : LocalFS) (s3 : S3State) (idf dir : PyStr)
    (hloc : is_s3_path (some (_get_user_credential_path idf dir)) = false) :
    fsLookup (delete_credentials_file fs s3 idf dir).2.1
      (_get_user_credential_path idf dir) = none := by
  simp only [delete_credentials_file, hloc, Bool.false_eq_true, if_false]
  split
  · exact fsLookup_fsRemove_self fs _
  · assumption

/-- A scan pass that found no successful refresh only ever removed
session records. -/
theorem atrPass_none_store_mem (refresh : PyStr → RefreshResult)
    (cid csec : Option PyStr) (dir : PyStr) (cond : SessionRec → Bool) :
    ∀ recs st st',
      atrPass refresh cid csec dir cond recs st = (none, st') →
      ∀ q ∈ st'.store, q ∈ st.store := by
  intro recs
  induction recs with
  | nil =>
    intro st st' h q hq
    unfold atrPass at h
    injection h with h1 h2
    subst h2
    exact hq
  | cons r0 rest ih =>
    intro st st' h q hq
    unfold atrPass at h
    repeat' split at h
    all_goals first
      | (simp at h
         done)
      | exact ih _ _ h q hq
      | exact (mem_remove_session st.store r0.user_email q
          (ih _ _ h q hq)).1

/-- A scan pass that found no successful refresh preserves the absence of
any local file. -/
theorem atrPass_none_fs_absent (refresh : PyStr → RefreshResult)
    (cid csec : Option PyStr) (dir : PyStr) (cond : SessionRec → Bool) :
    ∀ recs st st' p,
      atrPass refresh cid csec dir cond recs st = (none, st') →
      fsLookup st.fs p = none → fsLookup st'.fs p = none := by
  intro recs
  induction recs with
  | nil =>
    intro st st' p h habs
    unfold atrPass at h
    injection h with h1 h2
    subst h2
    exact habs
  | cons r0 rest ih =>
    intro st st' p h habs
    unfold atrPass at h
    repeat' split at h
    all_goals first
      | (simp at h
         done)
      | exact ih _ _ p h habs
      | exact ih _ _ p h (delete_fs_absent st.fs st.s3 r0.user_email dir p
          habs)

/-- A matching record whose refresh is definitively rejected is purged by
the scan pass (when the pass as a whole found no successful refresh): its
email is gone from the session store, and its local credential file is
gone from durable storage. -/
theorem atrPass_refresh_error_purges (refresh : PyStr → RefreshResult)
    (cid csec : Option PyStr) (dir : PyStr) (cond : SessionRec → Bool) :
    ∀ recs st st',
      atrPass refresh cid csec dir cond recs st = (none, st') →
      ∀ r, r ∈ recs → cond r = true → ∀ rt, r.refresh_token = some rt →
      rt.isEmpty = false → refresh rt = .refreshError →
      (∀ q ∈ st'.store, q.user_email ≠ r.user_email) ∧
      (is_s3_path (some (_get_user_credential_path r.user_email dir))
          = false →
        fsLookup st'.fs (_get_user_credential_path r.user_email dir)
          = none) := by
  intro recs
  induction recs with
  | nil =>
    intro st st' h r hr
    cases hr
  | cons r0 rest ih =>
    intro st st' h r hr hcond rt hrt hrtne hre
    rcases List.mem_cons.mp hr with heq | hmem
    · subst heq
      unfold atrPass at h
      simp only [hcond, if_true, hrt, hrtne, Bool.false_eq_true, if_false,
        hre] at h
      constructor
      · intro q hq
        have hq2 := atrPass_none_store_mem refresh cid csec dir cond rest
          _ st' h q hq
        simp only [remove_session, List.mem_filter, decide_eq_true_eq]
          at hq2
        exact hq2.2
      · intro hloc
        exact atrPass_none_fs_absent refresh cid csec dir cond rest _ st'
          _ h (delete_local_self st.fs st.s3 r.user_email dir hloc)
    · unfold atrPass at h
      repeat' split at h
      all_goals first
        | (simp at h
           done)
        | exact ih _ _ h r hmem hcond rt hrt hrtne hre

/-- C3: the verifier's recovery for a failed opaque token.  (i) A
successful refresh during the exact-match pass settles the result — the
prefix pass never runs; (ii) the prefix-match (first 20 characters) pass
runs exactly when the exact pass produced no successful refresh, over the
store the exact pass left behind; (iii) when the whole recovery fails, an
exactly-matching record whose refresh was definitively rejected has been
purged from both the Session Store and (for a local default directory)
durable storage; (iv) likewise for a prefix-matching record during the
second pass; (v) on introspection failure with a successful recovery,
`verify_token` re-verifies the new token recursively. -/
theorem c3_verify_recovery
    (refresh : PyStr → RefreshResult) (cid csec : Option PyStr)
    (dir failed : PyStr) (store : SessionStore) (fs : LocalFS)
    (s3 : S3State) (t : PyStr) (r : SessionRec) (rt : PyStr)
    (env : VerifyEnv) (fuel : Nat) (st st2 : AtrState) (token t2 : PyStr) :
    ((atrPass refresh cid csec dir (exactCond failed) store
        ⟨store, fs, s3⟩).1 = some t →
      _attempt_token_refresh refresh cid csec dir store fs s3 failed
        = (some t, (atrPass refresh cid csec dir (exactCond failed) store
            ⟨store, fs, s3⟩).2)) ∧
    ((atrPass refresh cid csec dir (exactCond failed) store
        ⟨store, fs, s3⟩).1 = none →
      _attempt_token_refresh refresh cid csec dir store fs s3 failed
        = atrPass refresh cid csec dir (prefCond failed)
            (atrPass refresh cid csec dir (exactCond failed) store
              ⟨store, fs, s3⟩).2.store
            (atrPass refresh cid csec dir (exactCond failed) store
              ⟨store, fs, s3⟩).2) ∧
    (∀ st', _attempt_token_refresh refresh cid csec dir store fs s3 failed
        = (none, st') →
      r ∈ store → exactCond failed r = true → r.refresh_token = some rt →
      rt.isEmpty = false → refresh rt = .refreshError →
      (∀ q ∈ st'.store, q.user_email ≠ r.user_email) ∧
      (is_s3_path (some (_get_user_credential_path r.user_email dir))
          = false →
        fsLookup st'.fs (_get_user_credential_path r.user_email dir)
          = none)) ∧
    (∀ stm st', atrPass refresh cid csec dir (exactCond failed) store
        ⟨store, fs, s3⟩ = (none, stm) →
      atrPass refresh cid csec dir (prefCond failed) stm.store stm
        = (none, st') →
      r ∈ stm.store → prefCond failed r = true →
      r.refresh_token = some rt → rt.isEmpty = false →
      refresh rt = .refreshError →
      ∀ q ∈ st'.store, q.user_email ≠ r.user_email) ∧
    (List.isPrefixOf "ya29.".toList token = true →
      env.introspect token = none →
      _attempt_token_refresh env.refresh (some env.clientId)
        env.clientSecret env.defaultDir st.store st.fs st.s3 token
        = (some t2, st2) →
      verify_token env (fuel + 1) st token
        = verify_token env fuel st2 t2) := by
  refine ⟨?_, ?_, ?_, ?_, ?_⟩
  · intro h1
    simp only [_attempt_token_refresh]
    rw [h1]
  · intro h1
    simp only [_attempt_token_refresh]
    rw [h1]
  · intro st' hres hr hcond hrt hrtne hre
    simp only [_attempt_token_refresh] at hres
    rcases hq : atrPass refresh cid csec dir (exactCond failed) store
      ⟨store, fs, s3⟩ with ⟨o, stm⟩
    rw [hq] at hres
    cases o with
    | some t0 => exact absurd hres (by simp)
    | none =>
      have hp := atrPass_refresh_error_purges refresh cid csec dir
        (exactCond failed) store ⟨store, fs, s3⟩ stm hq r hr hcond rt hrt
        hrtne hre
      constructor
      · intro q hqm
        exact hp.1 q (atrPass_none_store_mem refresh cid csec dir
          (prefCond failed) stm.store stm st' hres q hqm)
      · intro hloc
        exact atrPass_none_fs_absent refresh cid csec dir
          (prefCond failed) stm.store stm st' _ hres (hp.2 hloc)
  · intro stm st' h1 h2 hr hcond hrt hrtne hre
    exact (atrPass_refresh_error_purges refresh cid csec dir
      (prefCond failed) stm.store stm st' h2 r hr hcond rt hrt hrtne
      hre).1
  · intro hpre hint hatr
    simp only [verify_token, hpre, if_true, hint, hatr]

/-- C3 witness: the recovery evaluated concretely — an exact-match record
whose refresh succeeds settles the result with the new token; under total
rejection the matched record's credential file is purged; and a recovered
token is recursively re-verified. -/
theorem c3_verify_recovery_witness :
    _attempt_token_refresh acceptOracle none none "/d".toList vStore
      sampleFS sampleS3 vFailedTok
      = (some "tokNew".toList,
         (atrPass acceptOracle none none "/d".toList
           (exactCond vFailedTok) vStore ⟨vStore, sampleFS, sampleS3⟩).2) ∧
    fsLookup
      (_attempt_token_refresh rejectOracle none none "/d".toList vStore
        expiredFS sampleS3 vFailedTok).2.fs
      (_get_user_credential_path "e@x".toList "/d".toList) = none ∧
    verify_token vEnv 1 ⟨vStore, sampleFS, sampleS3⟩ vFailedTok
      = verify_token vEnv 0
          (_attempt_token_refresh acceptOracle (some "cid".toList) none
            "/d".toList vStore sampleFS sampleS3 vFailedTok).2
          "tokNew".toList := by
  refine ⟨?_, ?_, ?_⟩
  · exact (c3_verify_recovery acceptOracle none none "/d".toList
      vFailedTok vStore sampleFS sampleS3 "tokNew".toList vRec
      "rt1".toList vEnv 0 ⟨vStore, sampleFS, sampleS3⟩
      ⟨vStore, sampleFS, sampleS3⟩ [] []).1 (by decide)
  · exact ((c3_verify_recovery rejectOracle none none "/d".toList
      vFailedTok vStore expiredFS sampleS3 [] vRec "rt1".toList vEnv 0
      ⟨vStore, sampleFS, sampleS3⟩ ⟨vStore, sampleFS, sampleS3⟩ []
      []).2.2.1
      (_attempt_token_refresh rejectOracle none none "/d".toList vStore
        expiredFS sampleS3 vFailedTok).2
      (by decide) (by decide) (by decide) (by decide) (by decide)
      (by decide)).2 (by decide)
  · exact (c3_verify_recovery acceptOracle none none "/d".toList
      vFailedTok vStore sampleFS sampleS3 "tokNew".toList vRec
      "rt1".toList vEnv 0 ⟨vStore, sampleFS, sampleS3⟩
      (_attempt_token_refresh acceptOracle (some "cid".toList) none
        "/d".toList vStore sampleFS sampleS3 vFailedTok).2 vFailedTok
      "tokNew".toList).2.2.2.2 (by decide) (by decide) (by decide)
